import Mathlib

/-!
Shallow embedding of the model-generation core of the
`opensees-parametric-analysis` repository, together with proofs settling the
frozen claims about it.

Conventions of the embedding:
* Python `float` values are modelled as exact rationals (`ℚ`); the claims under
  study are about the arithmetic structure of the generated data, not about
  floating-point rounding.
* Python `dict`s that are built by inserting distinct keys in a loop are
  modelled as association lists (`List (key × value)`) in insertion order,
  which preserves both the key-value mapping and the deterministic iteration
  order of Python dicts.
* Python exceptions (`ValueError`, `TypeError`, `AttributeError`,
  `NotImplementedError`, dataclass `__post_init__` validation) are modelled
  with `Except PyErr`.
* Tags, floor numbers and grid indices are modelled as `ℕ`; the generators
  only ever produce non-negative values, and the dataclass validators reject
  negative floors.
-/

/-- Python exception kinds raised by the modelled code. -/
inductive PyErr where
  | valueError
  | typeError
  | attributeError
  | keyError
  | notImplementedError
  deriving DecidableEq, Repr

/-- `src/src/domain/geometry.py`, class `Node` (dataclass fields `tag`,
`coords`, `floor`, `grid_pos`).  `coords` is the Python list `[x, y, z]`. -/
structure Node where
  tag : Nat
  coords : List ℚ
  floor : Nat
  grid_pos : Option (Nat × Nat) := none
  deriving DecidableEq, Repr

/-- `src/src/domain/geometry.py`, class `Element` (dataclass fields `tag`,
`element_type`, `nodes`, `floor`, `section_tag`). -/
structure Element where
  tag : Nat
  element_type : String
  nodes : List Nat
  floor : Nat
  section_tag : Nat
  deriving DecidableEq, Repr

/-- The `Geometry` record exactly as its dataclass is declared in
`src/src/domain/geometry.py` lines 87-98 (fields `nodes` and `elements`
only): this is the only shape a `Geometry` value can actually take in the
source — it is what `Geometry.from_dict` constructs and `Geometry.to_dict`
serializes. -/
structure GeometryData where
  nodes : List (Nat × Node)
  elements : List (Nat × Element)
  deriving DecidableEq, Repr

/-- The eight-field geometry interface that `GeometryBuilder.create`'s
constructor call (`geometry_builder.py` lines 47-56), `LoadsBuilder`,
`StructuralModel` and the repository's tests all assume.  Against the
declared two-field dataclass (`GeometryData` above) this shape does not
exist: the constructor call raises `TypeError` on every input — the
faithful error path is `GeometryBuilder.createStrict` below.  This record
models only the hypothetical post-construction value those callers read
(`num_floors`, `nx`, `ny`, `L`, `B`, `floor_height`), so that their field
accesses can be written down. -/
structure Geometry where
  nodes : List (Nat × Node)
  elements : List (Nat × Element)
  L : ℚ
  B : ℚ
  nx : Nat
  ny : Nat
  num_floors : Nat
  floor_height : ℚ
  deriving DecidableEq, Repr

/-- Lookup in a Python dict modelled as an association list (all dicts built
by the generators have pairwise-distinct keys, so first-match lookup agrees
with Python's dict semantics). -/
def dictGet {κ α : Type} [DecidableEq κ] (k : κ) : List (κ × α) → Option α
  | [] => none
  | (k', v) :: rest => if k = k' then some v else dictGet k rest

/-- The running tag counter of the generator loops: pairs each list entry with
consecutive integer keys starting at `t`, building the value from its tag
(`node_tag`/`elem_tag` start at the given value and are incremented once per
constructed entity). -/
def tagWith {α β : Type} (mk : Nat → α → β) : Nat → List α → List (Nat × β)
  | _, [] => []
  | t, x :: xs => (t, mk t x) :: tagWith mk (t + 1) xs

/-- The iteration space of the node loops of
`GeometryBuilder._create_nodes`: `floor` from 0 to `num_floors` (outer),
`j` from 0 to `ny` (middle), `i` from 0 to `nx` (inner), in order. -/
def gridTriples (num_floors ny nx : Nat) : List (Nat × Nat × Nat) :=
  (List.range (num_floors + 1)).flatMap fun floor =>
    (List.range (ny + 1)).flatMap fun j =>
      (List.range (nx + 1)).map fun i => (floor, j, i)

/-- The node constructed for loop indices `(floor, j, i)` with tag `t`:
`Node(tag=node_tag, coords=[i*dx, j*dy, floor*dz], floor=floor,
grid_pos=(i, j))` with `dx = L/nx`, `dy = B/ny`, `dz = floor_height`
(`geometry_builder.py` lines 75-97). -/
def mkGridNode (L B : ℚ) (nx ny : Nat) (floor_height : ℚ)
    (t : Nat) : Nat × Nat × Nat → Node
  | (floor, j, i) =>
    { tag := t
      coords := [(i : ℚ) * (L / (nx : ℚ)), (j : ℚ) * (B / (ny : ℚ)),
        (floor : ℚ) * floor_height]
      floor := floor
      grid_pos := some (i, j) }

/-- `GeometryBuilder._create_nodes` (`geometry_builder.py` lines 58-99):
the triple-nested loop with the running counter `node_tag` starting at 1. -/
def GeometryBuilder.createNodes (L B : ℚ) (nx ny num_floors : Nat)
    (floor_height : ℚ) : List (Nat × Node) :=
  tagWith (mkGridNode L B nx ny floor_height) 1 (gridTriples num_floors ny nx)

/-- The payload of an element before the running counter assigns its tag. -/
structure ProtoElem where
  element_type : String
  nodes : List Nat
  floor : Nat
  section_tag : Nat
  deriving DecidableEq, Repr

/-- `Element(tag=elem_tag, element_type=..., nodes=..., floor=...,
section_tag=...)` for the running counter value `t`. -/
def mkElem (t : Nat) (p : ProtoElem) : Element :=
  { tag := t, element_type := p.element_type, nodes := p.nodes,
    floor := p.floor, section_tag := p.section_tag }

/-- Slab loop of `GeometryBuilder._create_elements` (`geometry_builder.py`
lines 117-135): for `floor` in `range(1, num_floors+1)`, `j` in `range(ny)`,
`i` in `range(nx)`, one slab with the four corner node tags computed from
`base_node = floor * (nx + 1) * (ny + 1)` and `section_tag = 1`. -/
def slabProtos (nx ny num_floors : Nat) : List ProtoElem :=
  (List.range' 1 num_floors).flatMap fun floor =>
    (List.range ny).flatMap fun j =>
      (List.range nx).map fun i =>
        { element_type := "slab"
          nodes := [floor * (nx + 1) * (ny + 1) + j * (nx + 1) + i + 1,
            floor * (nx + 1) * (ny + 1) + j * (nx + 1) + i + 2,
            floor * (nx + 1) * (ny + 1) + (j + 1) * (nx + 1) + i + 2,
            floor * (nx + 1) * (ny + 1) + (j + 1) * (nx + 1) + i + 1]
          floor := floor
          section_tag := 1 }

/-- Column loop of `GeometryBuilder._create_elements` (lines 137-152): for
`j` in `range(ny+1)`, `i` in `range(nx+1)`, `floor` in `range(num_floors)`,
one column from the node at `floor` to the node at `floor+1`,
`section_tag = 2`. -/
def columnProtos (nx ny num_floors : Nat) : List ProtoElem :=
  (List.range (ny + 1)).flatMap fun j =>
    (List.range (nx + 1)).flatMap fun i =>
      (List.range num_floors).map fun floor =>
        { element_type := "column"
          nodes := [floor * (nx + 1) * (ny + 1) + j * (nx + 1) + i + 1,
            (floor + 1) * (nx + 1) * (ny + 1) + j * (nx + 1) + i + 1]
          floor := floor
          section_tag := 2 }

/-- Beam loops of `GeometryBuilder._create_elements` (lines 154-186): for
each `floor` in `range(1, num_floors+1)`, first the beams along X
(`j` in `range(ny+1)`, `i` in `range(nx)`), then the beams along Y
(`j` in `range(ny)`, `i` in `range(nx+1)`), all with `section_tag = 3`.
Note the two directions are interleaved per floor in the source. -/
def beamProtos (nx ny num_floors : Nat) : List ProtoElem :=
  (List.range' 1 num_floors).flatMap fun floor =>
    ((List.range (ny + 1)).flatMap fun j =>
      (List.range nx).map fun i =>
        { element_type := "beam_x"
          nodes := [floor * (nx + 1) * (ny + 1) + j * (nx + 1) + i + 1,
            floor * (nx + 1) * (ny + 1) + j * (nx + 1) + i + 2]
          floor := floor
          section_tag := (3 : Nat) }) ++
    ((List.range ny).flatMap fun j =>
      (List.range (nx + 1)).map fun i =>
        { element_type := "beam_y"
          nodes := [floor * (nx + 1) * (ny + 1) + j * (nx + 1) + i + 1,
            floor * (nx + 1) * (ny + 1) + (j + 1) * (nx + 1) + i + 1]
          floor := floor
          section_tag := (3 : Nat) })

/-- `GeometryBuilder._create_elements` (lines 101-188): the three loop
groups run in source order — slabs, then columns, then the per-floor beam
loops — with the running counter `elem_tag` starting at 1. -/
def GeometryBuilder.createElements (nx ny num_floors : Nat) :
    List (Nat × Element) :=
  tagWith mkElem 1
    (slabProtos nx ny num_floors ++ columnProtos nx ny num_floors ++
      beamProtos nx ny num_floors)

/-- The value `GeometryBuilder.create` attempts to build
(`geometry_builder.py` lines 23-56): `L = B * L_B_ratio`, then nodes and
elements, packaged with the eight keyword arguments of the source
constructor call.  In the source this value is never delivered — the
constructor call fails, see `GeometryBuilder.createStrict`. -/
def GeometryBuilder.create ( L_B_ratio B : ℚ) (nx ny num_floors : Nat)
    (floor_height : ℚ) : Geometry :=
  { nodes := GeometryBuilder.createNodes (B * L_B_ratio) B nx ny num_floors
      floor_height
    elements := GeometryBuilder.createElements nx ny num_floors
    L := B * L_B_ratio
    B := B
    nx := nx
    ny := ny
    num_floors := num_floors
    floor_height := floor_height }

/-- `GeometryBuilder.create` as it actually executes against the declared
two-field `Geometry` dataclass: `_create_nodes` and `_create_elements`
run and succeed, but the final call
`Geometry(nodes=..., elements=..., L=..., B=..., nx=..., ny=...,
num_floors=..., floor_height=...)` passes six keyword arguments the
dataclass `__init__` does not accept, so Python raises `TypeError` on
every input and no geometry is ever returned. -/
def GeometryBuilder.createStrict ( L_B_ratio B : ℚ)
    (nx ny num_floors : Nat) (floor_height : ℚ) :
    Except PyErr GeometryData :=
  let L := B * L_B_ratio
  let _nodes := GeometryBuilder.createNodes L B nx ny num_floors
    floor_height
  let _elements := GeometryBuilder.createElements nx ny num_floors
  .error .typeError

/-- Tag of the node generated for `(floor, j, i)`, written exactly as the
element loops of the source compute their node references
(`base_node + j * (nx + 1) + i + 1` with
`base_node = floor * (nx + 1) * (ny + 1)`). -/
def nodeTag (nx ny floor j i : Nat) : Nat :=
  floor * (nx + 1) * (ny + 1) + j * (nx + 1) + i + 1

/-- Number of nodes: `(nx+1)(ny+1)(num_floors+1)`. -/
def nodeCount (nx ny num_floors : Nat) : Nat :=
  (nx + 1) * (ny + 1) * (num_floors + 1)

/-- Number of elements:
slabs + columns + beams, as in the spec's total-count formula. -/
def elementCount (nx ny num_floors : Nat) : Nat :=
  nx * ny * num_floors + (nx + 1) * (ny + 1) * num_floors +
    (nx * (ny + 1) + (nx + 1) * ny) * num_floors

/-! ### Generic lemmas about the loop combinators -/

theorem idx_lt {a b m n : Nat} (ha : a < m) (hb : b < n) :
    a * n + b < m * n := by
  calc a * n + b < a * n + n := by omega
    _ = (a + 1) * n := by ring
    _ ≤ m * n := Nat.mul_le_mul_right n ha

theorem length_flatMap_const {α β : Type} {l : List α} {f : α → List β}
    (c : Nat) (h : ∀ a ∈ l, (f a).length = c) :
    (l.flatMap f).length = l.length * c := by
  induction l with
  | nil => simp
  | cons x xs ih =>
    simp only [List.flatMap_cons, List.length_append, List.length_cons]
    rw [h x (by simp), ih (fun a ha => h a (by simp [ha]))]
    ring

theorem getElem?_flatMap_const {α β : Type} {l : List α} {f : α → List β}
    (c a b : Nat) (h : ∀ x ∈ l, (f x).length = c) (hb : b < c)
    (ha : a < l.length) :
    (l.flatMap f)[a * c + b]? = (f (l.get ⟨a, ha⟩))[b]? := by
  induction l generalizing a with
  | nil => simp at ha
  | cons x xs ih =>
    cases a with
    | zero =>
      simp only [List.flatMap_cons, Nat.zero_mul, Nat.zero_add]
      rw [List.getElem?_append]
      simp only [h x (by simp), hb, if_pos]
      rfl
    | succ a' =>
      simp only [List.flatMap_cons]
      rw [List.getElem?_append_right]
      · rw [h x (by simp)]
        have harith : (a' + 1) * c + b - c = a' * c + b := by
          have : (a' + 1) * c = a' * c + c := by ring
          omega
        rw [harith, ih a' (fun y hy => h y (by simp [hy]))
          (by simpa using ha)]
        rfl
      · rw [h x (by simp)]
        have : (a' + 1) * c = c + a' * c := by ring
        omega

theorem tagWith_map_fst {α β : Type} (mk : Nat → α → β) (t : Nat)
    (l : List α) :
    (tagWith mk t l).map Prod.fst = List.range' t l.length := by
  induction l generalizing t with
  | nil => simp [tagWith]
  | cons x xs ih => simp [tagWith, List.range'_succ, ih]

theorem dictGet_tagWith {α β : Type} (mk : Nat → α → β) (t k : Nat)
    (l : List α) (hk : k < l.length) :
    dictGet (t + k) (tagWith mk t l) = (l[k]?).map (mk (t + k)) := by
  induction l generalizing t k with
  | nil => simp at hk
  | cons x xs ih =>
    cases k with
    | zero => simp [tagWith, dictGet]
    | succ k' =>
      have hne : t + (k' + 1) ≠ t := by omega
      simp only [tagWith, dictGet, if_neg hne]
      have : t + (k' + 1) = (t + 1) + k' := by omega
      rw [this, ih (t + 1) k' (by simpa using hk)]
      simp

theorem length_gridTriples (num_floors ny nx : Nat) :
    (gridTriples num_floors ny nx).length =
      (num_floors + 1) * ((ny + 1) * (nx + 1)) := by
  unfold gridTriples
  rw [length_flatMap_const ((ny + 1) * (nx + 1))
    (by intro a _; rw [length_flatMap_const (nx + 1) (by intro x _; simp)]
        simp)]
  simp

theorem getElem?_gridTriples {num_floors ny nx floor j i : Nat}
    (hf : floor < num_floors + 1) (hj : j < ny + 1) (hi : i < nx + 1) :
    (gridTriples num_floors ny nx)[floor * ((ny + 1) * (nx + 1)) +
      (j * (nx + 1) + i)]? = some (floor, j, i) := by
  unfold gridTriples
  rw [getElem?_flatMap_const ((ny + 1) * (nx + 1)) floor (j * (nx + 1) + i)
    (by intro x _; rw [length_flatMap_const (nx + 1) (by intro y _; simp)]
        simp)
    (idx_lt hj hi) (by simpa using hf)]
  simp only [List.get_eq_getElem, List.getElem_range]
  rw [getElem?_flatMap_const (nx + 1) j i (by intro y _; simp) hi
    (by simpa using hj)]
  simp [List.getElem?_range hi]

/-! ### C1: node numbering of `GeometryBuilder.create` -/

/-- C1 (the code evaluated at the failing input): for every parameter set —
valid ones included — `GeometryBuilder.create` raises `TypeError` at its
final `Geometry(...)` constructor call (six keyword arguments the declared
two-field dataclass does not accept), so the claimed assignment is never
delivered by `create`.  The claimed numbering is exactly what the inner
`_create_nodes` loop computes before the failure: node tags 1.. in the
triple-nested `floor`/`j`/`i` order — the tag list is exactly
`[1, …, (nx+1)(ny+1)(num_floors+1)]` — and the node with grid position
`(i, j)` on floor `floor` has coordinates
`(i·length/nx, j·width/ny, floor·floor_height)` with
`length = width · aspect_ratio`. -/
theorem GeometryBuilder.createStrict_typeError_node_numbering
    ( L_B_ratio B : ℚ) (nx ny num_floors : Nat) (floor_height : ℚ)
    (h1 : 0 < L_B_ratio) (h2 : 0 < B) (h3 : 0 < nx) (h4 : 0 < ny)
    (h5 : 0 < num_floors) (h6 : 0 < floor_height) :
    (GeometryBuilder.createStrict L_B_ratio B nx ny num_floors
        floor_height = .error .typeError) ∧
    ((GeometryBuilder.createNodes (B * L_B_ratio) B nx ny num_floors
        floor_height).map
        Prod.fst = List.range' 1 (nodeCount nx ny num_floors)) ∧
    (∀ floor j i : Nat, floor ≤ num_floors → j ≤ ny → i ≤ nx →
      dictGet (nodeTag nx ny floor j i)
        (GeometryBuilder.createNodes (B * L_B_ratio) B nx ny num_floors
          floor_height) =
        some { tag := nodeTag nx ny floor j i
               coords := [(i : ℚ) * (B * L_B_ratio) / (nx : ℚ),
                 (j : ℚ) * B / (ny : ℚ), (floor : ℚ) * floor_height]
               floor := floor
               grid_pos := some (i, j) }) := by
  refine ⟨rfl, ?_, ?_⟩
  · show (tagWith _ 1 (gridTriples num_floors ny nx)).map Prod.fst = _
    rw [tagWith_map_fst, length_gridTriples]
    have hc : (num_floors + 1) * ((ny + 1) * (nx + 1)) =
        nodeCount nx ny num_floors := by
      unfold nodeCount; ring
    rw [hc]
  · intro floor j i hf hj hi
    have hk : nodeTag nx ny floor j i =
        1 + (floor * ((ny + 1) * (nx + 1)) + (j * (nx + 1) + i)) := by
      unfold nodeTag; ring
    show dictGet _ (tagWith _ 1 _) = _
    rw [hk, dictGet_tagWith _ 1 _ _ (by
      rw [length_gridTriples]
      exact idx_lt (by omega) (idx_lt (by omega) (by omega)))]
    rw [getElem?_gridTriples (by omega) (by omega) (by omega)]
    simp only [Option.map_some']
    congr 1
    simp [mkGridNode, Node.mk.injEq, hk.symm, mul_div_assoc]

/-- Closed instance of
`GeometryBuilder.createStrict_typeError_node_numbering` at the parameter
set `aspect_ratio = 3/2, width = 10, nx = ny = num_floors = 1,
floor_height = 3`: `create` raises `TypeError`, and the node map computed
by `_create_nodes` before the failure assigns the last node (tag 8, grid
position `(1,1)` on floor 1) the coordinates `(15, 10, 3)`. -/
theorem GeometryBuilder.createStrict_typeError_node_numbering_witness :
    GeometryBuilder.createStrict (3/2) 10 1 1 1 3 =
      .error .typeError ∧
    dictGet 8 (GeometryBuilder.createNodes 15 10 1 1 1 3) =
      some { tag := 8, coords := [15, 10, 3], floor := 1,
             grid_pos := some (1, 1) } := by
  have h := GeometryBuilder.createStrict_typeError_node_numbering
    (3/2) 10 1 1 1 3
    (by norm_num) (by norm_num) (by norm_num) (by norm_num) (by norm_num)
    (by norm_num)
  have h2 := h.2.2 1 1 1 (by norm_num) (by norm_num) (by norm_num)
  norm_num [nodeTag] at h2
  exact ⟨h.1, h2⟩

/-! ### Lengths and entries of the element loop groups -/

theorem length_slabProtos (nx ny num_floors : Nat) :
    (slabProtos nx ny num_floors).length = num_floors * (ny * nx) := by
  unfold slabProtos
  rw [length_flatMap_const (ny * nx)
    (by intro a _; rw [length_flatMap_const nx (by intro y _; simp)]
        simp)]
  simp

theorem length_columnProtos (nx ny num_floors : Nat) :
    (columnProtos nx ny num_floors).length =
      (ny + 1) * ((nx + 1) * num_floors) := by
  unfold columnProtos
  rw [length_flatMap_const ((nx + 1) * num_floors)
    (by intro a _; rw [length_flatMap_const num_floors (by intro y _; simp)]
        simp)]
  simp

theorem length_beamProtos (nx ny num_floors : Nat) :
    (beamProtos nx ny num_floors).length =
      num_floors * ((ny + 1) * nx + ny * (nx + 1)) := by
  unfold beamProtos
  rw [length_flatMap_const ((ny + 1) * nx + ny * (nx + 1))
    (by intro a _
        rw [List.length_append,
          length_flatMap_const nx (by intro y _; simp),
          length_flatMap_const (nx + 1) (by intro y _; simp)]
        simp)]
  simp

theorem getElem?_slabProtos {nx ny num_floors floor j i : Nat}
    (hf : floor < num_floors) (hj : j < ny) (hi : i < nx) :
    (slabProtos nx ny num_floors)[floor * (ny * nx) + (j * nx + i)]? =
      some { element_type := "slab"
             nodes := [(floor + 1) * (nx + 1) * (ny + 1) + j * (nx + 1) + i + 1,
               (floor + 1) * (nx + 1) * (ny + 1) + j * (nx + 1) + i + 2,
               (floor + 1) * (nx + 1) * (ny + 1) + (j + 1) * (nx + 1) + i + 2,
               (floor + 1) * (nx + 1) * (ny + 1) + (j + 1) * (nx + 1) + i + 1]
             floor := floor + 1
             section_tag := 1 } := by
  unfold slabProtos
  rw [getElem?_flatMap_const (ny * nx) floor (j * nx + i)
    (by intro x _; rw [length_flatMap_const nx (by intro y _; simp)]
        simp)
    (idx_lt hj hi) (by simpa using hf)]
  simp only [List.get_eq_getElem, List.getElem_range']
  rw [getElem?_flatMap_const nx j i (by intro y _; simp) hi
    (by simpa using hj)]
  simp only [List.get_eq_getElem, List.getElem_range, List.getElem?_map,
    List.getElem?_range hi, Option.map_some']
  congr 2 <;> ring

theorem getElem?_columnProtos {nx ny num_floors floor j i : Nat}
    (hj : j < ny + 1) (hi : i < nx + 1) (hf : floor < num_floors) :
    (columnProtos nx ny num_floors)[j * ((nx + 1) * num_floors) +
        (i * num_floors + floor)]? =
      some { element_type := "column"
             nodes := [floor * (nx + 1) * (ny + 1) + j * (nx + 1) + i + 1,
               (floor + 1) * (nx + 1) * (ny + 1) + j * (nx + 1) + i + 1]
             floor := floor
             section_tag := 2 } := by
  unfold columnProtos
  rw [getElem?_flatMap_const ((nx + 1) * num_floors) j (i * num_floors + floor)
    (by intro x _
        rw [length_flatMap_const num_floors (by intro y _; simp)]
        simp)
    (idx_lt hi hf) (by simpa using hj)]
  simp only [List.get_eq_getElem, List.getElem_range]
  rw [getElem?_flatMap_const num_floors i floor (by intro y _; simp) hf
    (by simpa using hi)]
  simp [List.getElem?_range hf]

theorem getElem?_beamProtos_x {nx ny num_floors floor j i : Nat}
    (hf : floor < num_floors) (hj : j < ny + 1) (hi : i < nx) :
    (beamProtos nx ny num_floors)[floor * ((ny + 1) * nx + ny * (nx + 1)) +
        (j * nx + i)]? =
      some { element_type := "beam_x"
             nodes := [(floor + 1) * (nx + 1) * (ny + 1) + j * (nx + 1) + i + 1,
               (floor + 1) * (nx + 1) * (ny + 1) + j * (nx + 1) + i + 2]
             floor := floor + 1
             section_tag := 3 } := by
  unfold beamProtos
  rw [getElem?_flatMap_const ((ny + 1) * nx + ny * (nx + 1)) floor (j * nx + i)
    (by intro x _
        rw [List.length_append,
          length_flatMap_const nx (by intro y _; simp),
          length_flatMap_const (nx + 1) (by intro y _; simp)]
        simp)
    (by
      have : j * nx + i < (ny + 1) * nx := idx_lt hj hi
      omega)
    (by simpa using hf)]
  simp only [List.get_eq_getElem, List.getElem_range']
  rw [List.getElem?_append]
  rw [if_pos (by
    rw [length_flatMap_const nx (by intro y _; simp)]
    simpa using idx_lt hj hi)]
  rw [getElem?_flatMap_const nx j i (by intro y _; simp) hi
    (by simpa using hj)]
  simp only [List.get_eq_getElem, List.getElem_range, List.getElem?_map,
    List.getElem?_range hi, Option.map_some']
  congr 2 <;> ring

theorem getElem?_beamProtos_y {nx ny num_floors floor j i : Nat}
    (hf : floor < num_floors) (hj : j < ny) (hi : i < nx + 1) :
    (beamProtos nx ny num_floors)[floor * ((ny + 1) * nx + ny * (nx + 1)) +
        ((ny + 1) * nx + (j * (nx + 1) + i))]? =
      some { element_type := "beam_y"
             nodes := [(floor + 1) * (nx + 1) * (ny + 1) + j * (nx + 1) + i + 1,
               (floor + 1) * (nx + 1) * (ny + 1) + (j + 1) * (nx + 1) + i + 1]
             floor := floor + 1
             section_tag := 3 } := by
  unfold beamProtos
  rw [getElem?_flatMap_const ((ny + 1) * nx + ny * (nx + 1)) floor
    ((ny + 1) * nx + (j * (nx + 1) + i))
    (by intro x _
        rw [List.length_append,
          length_flatMap_const nx (by intro y _; simp),
          length_flatMap_const (nx + 1) (by intro y _; simp)]
        simp)
    (by
      have : j * (nx + 1) + i < ny * (nx + 1) := idx_lt hj hi
      omega)
    (by simpa using hf)]
  simp only [List.get_eq_getElem, List.getElem_range']
  rw [List.getElem?_append]
  rw [if_neg (by
    rw [length_flatMap_const nx (by intro y _; simp)]
    simp only [List.length_range]
    omega)]
  rw [show (ny + 1) * nx + (j * (nx + 1) + i) -
      ((List.range (ny + 1)).flatMap fun j =>
        (List.range nx).map fun i =>
          ({ element_type := "beam_x"
             nodes := [(1 + 1 * floor) * (nx + 1) * (ny + 1) + j * (nx + 1) + i + 1,
               (1 + 1 * floor) * (nx + 1) * (ny + 1) + j * (nx + 1) + i + 2]
             floor := 1 + 1 * floor
             section_tag := (3 : Nat) } : ProtoElem)).length =
      j * (nx + 1) + i from by
    rw [length_flatMap_const nx (by intro y _; simp)]
    simp only [List.length_range]
    omega]
  rw [getElem?_flatMap_const (nx + 1) j i (by intro y _; simp) hi
    (by simpa using hj)]
  simp only [List.get_eq_getElem, List.getElem_range, List.getElem?_map,
    List.getElem?_range hi, Option.map_some']
  congr 2 <;> ring

/-! ### C2: element numbering of `GeometryBuilder.create` -/

/-- C2 counterexample: the claim fails twice over.  The claimed fixed
category order "slabs, then columns, then beams along X, then beams along
Y" fails already in the element generator: with `nx = ny = 1,
num_floors = 2` the element tagged 13 is a `beam_y` (floor 1) while the
element tagged 15 is a `beam_x` (floor 2), so a Y-direction beam precedes
an X-direction beam in the tag order.  And `GeometryBuilder.create` itself
never numbers anything: at the same parameter set (aspect 3/2, width 10)
it raises `TypeError` at its `Geometry(...)` constructor call. -/
theorem createElements_beam_order_counterexample :
    (¬ (∀ p ∈ GeometryBuilder.createElements 1 1 2,
        ∀ q ∈ GeometryBuilder.createElements 1 1 2,
          p.2.element_type = "beam_x" → q.2.element_type = "beam_y" →
            p.1 < q.1)) ∧
    GeometryBuilder.createStrict (3/2) 10 1 1 2 3 = .error .typeError := by
  refine ⟨?_, rfl⟩
  intro horder
  have h13 :
      (13,
        ({ tag := 13
           element_type := "beam_y"
           nodes := [5, 7]
           floor := 1
           section_tag := 3 } : Element)) ∈
        GeometryBuilder.createElements 1 1 2 := by decide
  have h15 :
      (15,
        ({ tag := 15
           element_type := "beam_x"
           nodes := [9, 10]
           floor := 2
           section_tag := 3 } : Element)) ∈
        GeometryBuilder.createElements 1 1 2 := by decide
  exact absurd (horder _ h15 _ h13 rfl rfl) (by norm_num)

/-- C2 (amended): the element numbering of the claim is implemented by the
inner `_create_elements` loop — `GeometryBuilder.create` itself raises
`TypeError` at its `Geometry(...)` constructor call for every parameter
set, so it never returns these elements.  `_create_elements` numbers
elements sequentially from 1 in the order slabs, then columns, then beams,
where the beam loops run per floor (floor 1..num_floors) emitting that
floor's X-direction beams and then its Y-direction beams; the element tag
list is exactly `[1, …, total_element_count]` with
`total_element_count = nx·ny·num_floors + (nx+1)(ny+1)·num_floors +
[nx(ny+1) + (nx+1)ny]·num_floors`; each slab for cell `(i,j)` of floor
`floor+1` references the four corner nodes of that cell on that floor in
counter-clockwise order `(i,j), (i+1,j), (i+1,j+1), (i,j+1)`; each column
connects the node at `(i,j,floor)` to the node at `(i,j,floor+1)`. -/
theorem GeometryBuilder.createElements_numbering
    ( L_B_ratio B : ℚ) (nx ny num_floors : Nat) (floor_height : ℚ)
    (h1 : 0 < L_B_ratio) (h2 : 0 < B) (h3 : 0 < nx) (h4 : 0 < ny)
    (h5 : 0 < num_floors) (h6 : 0 < floor_height) :
    (GeometryBuilder.createStrict L_B_ratio B nx ny num_floors
        floor_height = .error .typeError) ∧
    ((GeometryBuilder.createElements nx ny num_floors).map Prod.fst =
      List.range' 1 (elementCount nx ny num_floors)) ∧
    (∀ floor j i : Nat, floor < num_floors → j < ny → i < nx →
      dictGet (floor * (ny * nx) + j * nx + i + 1)
        (GeometryBuilder.createElements nx ny num_floors) =
        some { tag := floor * (ny * nx) + j * nx + i + 1
               element_type := "slab"
               nodes := [nodeTag nx ny (floor + 1) j i,
                 nodeTag nx ny (floor + 1) j (i + 1),
                 nodeTag nx ny (floor + 1) (j + 1) (i + 1),
                 nodeTag nx ny (floor + 1) (j + 1) i]
               floor := floor + 1
               section_tag := 1 }) ∧
    (∀ j i floor : Nat, j ≤ ny → i ≤ nx → floor < num_floors →
      dictGet (num_floors * (ny * nx) + j * ((nx + 1) * num_floors) +
          i * num_floors + floor + 1)
        (GeometryBuilder.createElements nx ny num_floors) =
        some { tag := num_floors * (ny * nx) + j * ((nx + 1) * num_floors) +
                 i * num_floors + floor + 1
               element_type := "column"
               nodes := [nodeTag nx ny floor j i, nodeTag nx ny (floor + 1) j i]
               floor := floor
               section_tag := 2 }) ∧
    (∀ floor j i : Nat, floor < num_floors → j ≤ ny → i < nx →
      dictGet (num_floors * (ny * nx) + (ny + 1) * ((nx + 1) * num_floors) +
          floor * ((ny + 1) * nx + ny * (nx + 1)) + j * nx + i + 1)
        (GeometryBuilder.createElements nx ny num_floors) =
        some { tag := num_floors * (ny * nx) +
                 (ny + 1) * ((nx + 1) * num_floors) +
                 floor * ((ny + 1) * nx + ny * (nx + 1)) + j * nx + i + 1
               element_type := "beam_x"
               nodes := [nodeTag nx ny (floor + 1) j i,
                 nodeTag nx ny (floor + 1) j (i + 1)]
               floor := floor + 1
               section_tag := 3 }) ∧
    (∀ floor j i : Nat, floor < num_floors → j < ny → i ≤ nx →
      dictGet (num_floors * (ny * nx) + (ny + 1) * ((nx + 1) * num_floors) +
          floor * ((ny + 1) * nx + ny * (nx + 1)) + (ny + 1) * nx +
          j * (nx + 1) + i + 1)
        (GeometryBuilder.createElements nx ny num_floors) =
        some { tag := num_floors * (ny * nx) +
                 (ny + 1) * ((nx + 1) * num_floors) +
                 floor * ((ny + 1) * nx + ny * (nx + 1)) + (ny + 1) * nx +
                 j * (nx + 1) + i + 1
               element_type := "beam_y"
               nodes := [nodeTag nx ny (floor + 1) j i,
                 nodeTag nx ny (floor + 1) (j + 1) i]
               floor := floor + 1
               section_tag := 3 }) := by
  refine ⟨rfl, ?_, ?_, ?_, ?_, ?_⟩
  · show (tagWith mkElem 1 _).map Prod.fst = _
    rw [tagWith_map_fst]
    have hlen : (slabProtos nx ny num_floors ++ columnProtos nx ny num_floors ++
        beamProtos nx ny num_floors).length = elementCount nx ny num_floors := by
      rw [List.length_append, List.length_append, length_slabProtos,
        length_columnProtos, length_beamProtos]
      unfold elementCount
      ring
    rw [hlen]
  · -- slabs
    intro floor j i hf hj hi
    have hk : floor * (ny * nx) + j * nx + i + 1 =
        1 + (floor * (ny * nx) + (j * nx + i)) := by ring
    show dictGet _ (tagWith mkElem 1 _) = _
    rw [hk, dictGet_tagWith mkElem 1 _ _ (by
      rw [List.length_append, List.length_append, length_slabProtos,
        length_columnProtos, length_beamProtos]
      have := idx_lt hf (idx_lt hj hi)
      omega)]
    rw [List.getElem?_append, if_pos (by
      rw [List.length_append, length_slabProtos, length_columnProtos]
      have := idx_lt hf (idx_lt hj hi)
      omega)]
    rw [List.getElem?_append, if_pos (by
      rw [length_slabProtos]
      exact idx_lt hf (idx_lt hj hi))]
    rw [getElem?_slabProtos hf hj hi]
    simp only [Option.map_some']
    congr 1
  · -- columns
    intro j i floor hj hi hf
    have hk : num_floors * (ny * nx) + j * ((nx + 1) * num_floors) +
        i * num_floors + floor + 1 =
        1 + (num_floors * (ny * nx) +
          (j * ((nx + 1) * num_floors) + (i * num_floors + floor))) := by ring
    show dictGet _ (tagWith mkElem 1 _) = _
    rw [hk, dictGet_tagWith mkElem 1 _ _ (by
      rw [List.length_append, List.length_append, length_slabProtos,
        length_columnProtos, length_beamProtos]
      have := idx_lt (by omega : j < ny + 1)
        (idx_lt (by omega : i < nx + 1) hf)
      omega)]
    rw [List.getElem?_append, if_pos (by
      rw [List.length_append, length_slabProtos, length_columnProtos]
      have := idx_lt (by omega : j < ny + 1)
        (idx_lt (by omega : i < nx + 1) hf)
      omega)]
    rw [List.getElem?_append, if_neg (by
      rw [length_slabProtos]
      omega)]
    rw [show num_floors * (ny * nx) +
        (j * ((nx + 1) * num_floors) + (i * num_floors + floor)) -
        (slabProtos nx ny num_floors).length =
        j * ((nx + 1) * num_floors) + (i * num_floors + floor) from by
      rw [length_slabProtos]; omega]
    rw [getElem?_columnProtos (by omega) (by omega) hf]
    simp only [Option.map_some']
    congr 1
  · -- beams along X (within the floor's beam block)
    intro floor j i hf hj hi
    have hk : num_floors * (ny * nx) + (ny + 1) * ((nx + 1) * num_floors) +
        floor * ((ny + 1) * nx + ny * (nx + 1)) + j * nx + i + 1 =
        1 + (num_floors * (ny * nx) + (ny + 1) * ((nx + 1) * num_floors) +
          (floor * ((ny + 1) * nx + ny * (nx + 1)) + (j * nx + i))) := by ring
    show dictGet _ (tagWith mkElem 1 _) = _
    have hjx : j * nx + i < (ny + 1) * nx := idx_lt (by omega) hi
    have hfb : floor * ((ny + 1) * nx + ny * (nx + 1)) + (j * nx + i) <
        num_floors * ((ny + 1) * nx + ny * (nx + 1)) :=
      idx_lt hf (by omega)
    rw [hk, dictGet_tagWith mkElem 1 _ _ (by
      rw [List.length_append, List.length_append, length_slabProtos,
        length_columnProtos, length_beamProtos]
      omega)]
    rw [List.getElem?_append, if_neg (by
      rw [List.length_append, length_slabProtos, length_columnProtos]
      omega)]
    rw [show num_floors * (ny * nx) + (ny + 1) * ((nx + 1) * num_floors) +
        (floor * ((ny + 1) * nx + ny * (nx + 1)) + (j * nx + i)) -
        (slabProtos nx ny num_floors ++ columnProtos nx ny num_floors).length =
        floor * ((ny + 1) * nx + ny * (nx + 1)) + (j * nx + i) from by
      rw [List.length_append, length_slabProtos, length_columnProtos]; omega]
    rw [getElem?_beamProtos_x hf (by omega) hi]
    simp only [Option.map_some']
    congr 1
  · -- beams along Y (within the floor's beam block)
    intro floor j i hf hj hi
    have hk : num_floors * (ny * nx) + (ny + 1) * ((nx + 1) * num_floors) +
        floor * ((ny + 1) * nx + ny * (nx + 1)) + (ny + 1) * nx +
        j * (nx + 1) + i + 1 =
        1 + (num_floors * (ny * nx) + (ny + 1) * ((nx + 1) * num_floors) +
          (floor * ((ny + 1) * nx + ny * (nx + 1)) +
            ((ny + 1) * nx + (j * (nx + 1) + i)))) := by ring
    show dictGet _ (tagWith mkElem 1 _) = _
    have hjy : j * (nx + 1) + i < ny * (nx + 1) := idx_lt hj (by omega)
    have hfb : floor * ((ny + 1) * nx + ny * (nx + 1)) +
        ((ny + 1) * nx + (j * (nx + 1) + i)) <
        num_floors * ((ny + 1) * nx + ny * (nx + 1)) :=
      idx_lt hf (by omega)
    rw [hk, dictGet_tagWith mkElem 1 _ _ (by
      rw [List.length_append, List.length_append, length_slabProtos,
        length_columnProtos, length_beamProtos]
      omega)]
    rw [List.getElem?_append, if_neg (by
      rw [List.length_append, length_slabProtos, length_columnProtos]
      omega)]
    rw [show num_floors * (ny * nx) + (ny + 1) * ((nx + 1) * num_floors) +
        (floor * ((ny + 1) * nx + ny * (nx + 1)) +
          ((ny + 1) * nx + (j * (nx + 1) + i))) -
        (slabProtos nx ny num_floors ++ columnProtos nx ny num_floors).length =
        floor * ((ny + 1) * nx + ny * (nx + 1)) +
          ((ny + 1) * nx + (j * (nx + 1) + i)) from by
      rw [List.length_append, length_slabProtos, length_columnProtos]; omega]
    rw [getElem?_beamProtos_y hf hj (by omega)]
    simp only [Option.map_some']
    congr 1

/-- Closed instance of `GeometryBuilder.createElements_numbering` at
`aspect_ratio = 3/2, width = 10, nx = ny = num_floors = 1,
floor_height = 3`: `create` raises `TypeError`, and in the element map
computed by `_create_elements` element 1 is the slab of floor 1
referencing the four floor-1 corner nodes 5, 6, 8, 7 in counter-clockwise
order. -/
theorem GeometryBuilder.createElements_numbering_witness :
    GeometryBuilder.createStrict (3/2) 10 1 1 1 3 = .error .typeError ∧
    dictGet 1 (GeometryBuilder.createElements 1 1 1) =
      some { tag := 1, element_type := "slab", nodes := [5, 6, 8, 7],
             floor := 1, section_tag := 1 } := by
  have h := GeometryBuilder.createElements_numbering (3/2) 10 1 1 1 3
    (by norm_num) (by norm_num) (by norm_num) (by norm_num) (by norm_num)
    (by norm_num)
  have h2 := h.2.2.1 0 0 0 (by norm_num) (by norm_num) (by norm_num)
  norm_num [nodeTag] at h2
  exact ⟨h.1, h2⟩

/-! ### Loads (`src/src/domain/loads.py`, `src/src/builders/loads_builder.py`) -/

/-- `src/src/domain/loads.py`, class `PointLoad` (the builders and
`StructuralModel` refer to this class under its pre-rename name `Load`;
the fields and validation are those of the dataclass in `loads.py`). -/
structure PointLoad where
  node_tag : Nat
  load_type : String
  value : ℚ
  direction : String
  load_case : Option String := none
  deriving DecidableEq, Repr

/-- `PointLoad.__post_init__` validation (`loads.py` lines 20-27):
`node_tag` must be positive, `load_type` non-empty, `direction` one of
`X, Y, Z, RX, RY, RZ`; otherwise `ValueError`. -/
def mkPointLoad (node_tag : Nat) (load_type : String) (value : ℚ)
    (direction : String) (load_case : Option String) :
    Except PyErr PointLoad :=
  if node_tag = 0 then .error .valueError
  else if load_type = "" then .error .valueError
  else if ¬ (direction ∈ ["X", "Y", "Z", "RX", "RY", "RZ"]) then
    .error .valueError
  else .ok { node_tag := node_tag, load_type := load_type, value := value,
             direction := direction, load_case := load_case }

/-- The `load_params` dictionary consumed by
`LoadsBuilder._create_distributed_loads`; only its `distributed_load` key is
read on this path (`loads_builder.py` line 63). -/
structure LoadParams where
  distributed_load : Option ℚ := none
  deriving DecidableEq, Repr

/-- `src/src/domain/loads.py`, class `LoadManager` (referred to as `Loads` by
its callers): the loads container keyed by node tag, plus the load-pattern
parameters.  Its `__init__` accepts any (possibly empty) dictionary with no
validation. -/
structure LoadManager where
  loads : List (Nat × PointLoad)
  load_pattern_params : LoadParams
  deriving DecidableEq, Repr

/-- The loop body of `LoadsBuilder._create_distributed_loads`
(`loads_builder.py` lines 65-75): iterate over `geometry.nodes.items()` and,
for each node on the top floor, store
`Load(node_tag, 'distributed_load', -q, 'Z', 'dead')` under the node's tag. -/
def distLoadsGo (top : Nat) (q : ℚ) :
    List (Nat × Node) → Except PyErr (List (Nat × PointLoad))
  | [] => .ok []
  | (tag, n) :: rest =>
    if n.floor = top then do
      let pl ← mkPointLoad tag "distributed_load" (-q) "Z" (some "dead")
      let r ← distLoadsGo top q rest
      pure ((tag, pl) :: r)
    else distLoadsGo top q rest

/-- `LoadsBuilder._create_distributed_loads` (`loads_builder.py` lines
48-77) on the hypothetical eight-field geometry its code assumes:
`q = load_params.get('distributed_load', 1.0)`,
`top_floor = geometry.num_floors`, then the node loop.  On the declared
two-field `Geometry` dataclass the `geometry.num_floors` read fails — see
`LoadsBuilder.createStrict`. -/
def LoadsBuilder.createDistributedLoads (g : Geometry) (p : LoadParams) :
    Except PyErr (List (Nat × PointLoad)) :=
  distLoadsGo g.num_floors (p.distributed_load.getD 1) g.nodes

/-- `LoadsBuilder.create` (`loads_builder.py` lines 25-46) on the
hypothetical eight-field geometry: builds the distributed loads and wraps
them in the loads container together with the load-pattern parameters. -/
def LoadsBuilder.create (g : Geometry) (p : LoadParams) :
    Except PyErr LoadManager := do
  let loadsDict ← LoadsBuilder.createDistributedLoads g p
  pure { loads := loadsDict, load_pattern_params := p }

/-- The attribute read `geometry.num_floors` against the `Geometry`
dataclass as declared (fields `nodes` and `elements` only): the attribute
does not exist, so Python raises `AttributeError`. -/
def GeometryData.getNumFloors (_g : GeometryData) : Except PyErr Nat :=
  .error .attributeError

/-- `LoadsBuilder.create` as it would actually execute against the
declared two-field `Geometry` dataclass: the `top_floor =
geometry.num_floors` read of `_create_distributed_loads` raises
`AttributeError` before any load is built.  (In fact the module cannot
even be imported: `loads_builder.py` imports the names `Loads` and `Load`
from `domain/loads.py`, which defines only `LoadManager` and `PointLoad`,
so both import paths raise `ImportError`.) -/
def LoadsBuilder.createStrict (g : GeometryData) (p : LoadParams) :
    Except PyErr LoadManager := do
  let top ← g.getNumFloors
  let loadsDict ← distLoadsGo top (p.distributed_load.getD 1) g.nodes
  pure { loads := loadsDict, load_pattern_params := p }

theorem dictGet_eq_none_of_not_mem {α : Type} {k : Nat}
    {l : List (Nat × α)} (h : k ∉ l.map Prod.fst) : dictGet k l = none := by
  induction l with
  | nil => rfl
  | cons x xs ih =>
    have hk : k ≠ x.1 := by
      intro he
      exact h (by simp [he])
    obtain ⟨k', v⟩ := x
    simp only [dictGet, if_neg hk]
    exact ih (by intro hm; exact h (by simp [hm]))

theorem distLoadsGo_spec (top : Nat) (q : ℚ) (l : List (Nat × Node))
    (hnodup : (l.map Prod.fst).Nodup) (htags : ∀ pr ∈ l, 1 ≤ pr.1) :
    ∃ ls, distLoadsGo top q l = .ok ls ∧
      (∀ tag load, dictGet tag ls = some load →
        load = { node_tag := tag, load_type := "distributed_load",
                 value := -q, direction := "Z", load_case := some "dead" } ∧
        ∃ n, dictGet tag l = some n ∧ n.floor = top) ∧
      (∀ tag n, dictGet tag l = some n → n.floor = top →
        dictGet tag ls =
          some { node_tag := tag, load_type := "distributed_load",
                 value := -q, direction := "Z", load_case := some "dead" }) ∧
      ((∀ pr ∈ l, pr.2.floor ≠ top) → ls = []) := by
  induction l with
  | nil =>
    refine ⟨[], rfl, ?_, ?_, fun _ => rfl⟩
    · intro tag load h
      exact Option.noConfusion h
    · intro tag n h
      exact Option.noConfusion h
  | cons x rest ih =>
    obtain ⟨tag, n⟩ := x
    have hnd : (rest.map Prod.fst).Nodup := (List.nodup_cons.mp hnodup).2
    have hnm : tag ∉ rest.map Prod.fst := (List.nodup_cons.mp hnodup).1
    obtain ⟨ls, hok, hfwd, hrev, hemp⟩ :=
      ih hnd (fun pr hpr => htags pr (by simp [hpr]))
    have htag1 : 1 ≤ tag := htags (tag, n) (by simp)
    by_cases htop : n.floor = top
    · have hmk : mkPointLoad tag "distributed_load" (-q) "Z" (some "dead") =
          .ok { node_tag := tag, load_type := "distributed_load",
                value := -q, direction := "Z", load_case := some "dead" } := by
        unfold mkPointLoad
        rw [if_neg (by omega)]
        simp
      refine ⟨(tag, { node_tag := tag
                      load_type := "distributed_load"
                      value := -q
                      direction := "Z"
                      load_case := some "dead" }) :: ls, ?_, ?_, ?_, ?_⟩
      · simp only [distLoadsGo, if_pos htop, hmk, hok]
        rfl
      · intro tag' load h
        by_cases he : tag' = tag
        · subst he
          simp only [dictGet, if_true, reduceIte] at h
          refine ⟨(Option.some.inj h).symm, n, ?_, htop⟩
          simp [dictGet]
        · simp only [dictGet, if_neg he] at h
          obtain ⟨hload, n', hn', hfl⟩ := hfwd tag' load h
          exact ⟨hload, n', by simp [dictGet, if_neg he, hn'], hfl⟩
      · intro tag' n' h hfl
        by_cases he : tag' = tag
        · subst he
          simp only [dictGet, reduceIte] at h ⊢
        · simp only [dictGet, if_neg he] at h ⊢
          exact hrev tag' n' h hfl
      · intro hall
        exact absurd htop (hall (tag, n) (by simp))
    · refine ⟨ls, ?_, ?_, ?_, ?_⟩
      · simp only [distLoadsGo, if_neg htop, hok]
      · intro tag' load h
        obtain ⟨hload, n', hn', hfl⟩ := hfwd tag' load h
        have hne : tag' ≠ tag := by
          intro he
          subst he
          rw [dictGet_eq_none_of_not_mem hnm] at hn'
          cases hn'
        exact ⟨hload, n', by simp [dictGet, if_neg hne, hn'], hfl⟩
      · intro tag' n' h hfl
        by_cases he : tag' = tag
        · subst he
          simp only [dictGet, reduceIte] at h
          rw [← Option.some.inj h] at hfl
          exact absurd hfl htop
        · simp only [dictGet, if_neg he] at h
          exact hrev tag' n' h hfl
      · intro hall
        exact hemp (fun pr hpr => hall pr (by simp [hpr]))

/-! ### C6: top-floor load placement of `LoadsBuilder.create` -/

/-- C6 (the code evaluated at the failing input): `LoadsBuilder.create`
never delivers the claimed loads — against the declared two-field
`Geometry` dataclass the `top_floor = geometry.num_floors` read raises
`AttributeError` for every geometry and parameter dictionary (and the
module itself is unimportable, since it imports the names `Loads`/`Load`
that `domain/loads.py` no longer defines).  The claimed placement is
exactly what the node loop of `_create_distributed_loads` implements for
a well-formed node map (pairwise-distinct positive tags) and any chosen
top floor: one load of value `-q` (default `q = 1`) in direction `Z` per
node on that floor, every such node carries exactly that load, no other
node carries one, and an empty node selection yields an empty loads
dictionary rather than a failure. -/
theorem LoadsBuilder.createStrict_attributeError_top_floor_loop
    (g : GeometryData) (p : LoadParams) (top : Nat)
    (hnodup : (g.nodes.map Prod.fst).Nodup)
    (htags : ∀ pr ∈ g.nodes, 1 ≤ pr.1) :
    LoadsBuilder.createStrict g p = .error .attributeError ∧
    (∃ ls, distLoadsGo top (p.distributed_load.getD 1) g.nodes = .ok ls ∧
      (∀ tag load, dictGet tag ls = some load →
        load = { node_tag := tag, load_type := "distributed_load",
                 value := -(p.distributed_load.getD 1), direction := "Z",
                 load_case := some "dead" } ∧
        ∃ n, dictGet tag g.nodes = some n ∧ n.floor = top) ∧
      (∀ tag n, dictGet tag g.nodes = some n → n.floor = top →
        dictGet tag ls =
          some { node_tag := tag, load_type := "distributed_load",
                 value := -(p.distributed_load.getD 1), direction := "Z",
                 load_case := some "dead" }) ∧
      ((∀ pr ∈ g.nodes, pr.2.floor ≠ top) → ls = [])) :=
  ⟨rfl, distLoadsGo_spec top (p.distributed_load.getD 1) g.nodes hnodup
    htags⟩

/-- Closed instance of
`LoadsBuilder.createStrict_attributeError_top_floor_loop` on the node and
element maps the generator loops compute for
`aspect_ratio = 3/2, width = 10, nx = ny = num_floors = 1,
floor_height = 3`: the builder raises `AttributeError`. -/
theorem LoadsBuilder.createStrict_attributeError_witness :
    LoadsBuilder.createStrict
      { nodes := GeometryBuilder.createNodes 15 10 1 1 1 3
        elements := GeometryBuilder.createElements 1 1 1 }
      { distributed_load := some 2 } = .error .attributeError :=
  (LoadsBuilder.createStrict_attributeError_top_floor_loop
    { nodes := GeometryBuilder.createNodes 15 10 1 1 1 3
      elements := GeometryBuilder.createElements 1 1 1 }
    { distributed_load := some 2 } 1 (by decide) (by decide)).1

/-! ### Material (`src/src/domain/material.py`) -/

/-- `Material` dataclass fields (`material.py` lines 25-30).  The shear
modulus `G` is not a field: it is a computed property (line 41-44), so it
cannot be stored or set independently of `E` and `nu`. -/
structure Material where
  E : ℚ
  nu : ℚ
  rho : ℚ
  fc : Option ℚ := none
  fy : Option ℚ := none
  name : String := "concrete_default"
  deriving DecidableEq, Repr

/-- `Material.__post_init__` (`material.py` lines 32-39): `E > 0`,
`0 ≤ nu ≤ 0.5`, `rho > 0`, else `ValueError`. -/
def mkMaterial (E nu rho : ℚ) (fc fy : Option ℚ) (name : String) :
    Except PyErr Material :=
  if E ≤ 0 then .error .valueError
  else if ¬ (0 ≤ nu ∧ nu ≤ 1/2) then .error .valueError
  else if rho ≤ 0 then .error .valueError
  else .ok { E := E, nu := nu, rho := rho, fc := fc, fy := fy, name := name }

/-- `Material.G` property (`material.py` lines 41-44):
`E / (2 * (1 + nu))`. -/
def Material.G (m : Material) : ℚ := m.E / (2 * (1 + m.nu))

/-- The dictionary produced by `Material.to_dict` (`material.py` lines
46-56). -/
structure MaterialDoc where
  name : String
  E : ℚ
  nu : ℚ
  rho : ℚ
  G : ℚ
  fc : Option ℚ
  fy : Option ℚ
  deriving DecidableEq, Repr

/-- `Material.to_dict` (`material.py` lines 46-56): serializes the fields
plus the derived property `G`. -/
def Material.toDict (m : Material) : MaterialDoc :=
  { name := m.name, E := m.E, nu := m.nu, rho := m.rho, G := m.G,
    fc := m.fc, fy := m.fy }

/-! ### Sections (`src/src/domain/sections.py`,
`src/src/builders/sections_builder.py`) -/

/-- The tagged union of the two section dataclasses of
`src/src/domain/sections.py`: `ShellSection` (slab; `thickness`) and
`FrameSection` (column/beam; `size`, `transf_tag`), each carrying the base
`Section` fields `tag`, `section_type`, `properties`, `element_type`.
`properties` holds at most the `material_name` entry on the paths modelled
here. -/
inductive SectionVal where
  | shell (tag : Nat) (section_type : String)
      (properties : List (String × String)) (element_type : String)
      (thickness : ℚ)
  | frame (tag : Nat) (section_type : String)
      (properties : List (String × String)) (element_type : String)
      (size : ℚ × ℚ) (transf_tag : Nat)
  deriving DecidableEq, Repr

/-- Base-class attribute `section_type` (present on both variants). -/
def SectionVal.section_type : SectionVal → String
  | .shell _ st _ _ _ => st
  | .frame _ st _ _ _ _ => st

/-- Base-class attribute `properties` (present on both variants). -/
def SectionVal.properties : SectionVal → List (String × String)
  | .shell _ _ pr _ _ => pr
  | .frame _ _ pr _ _ _ => pr

/-- Base-class attribute `element_type` (present on both variants). -/
def SectionVal.element_type : SectionVal → String
  | .shell _ _ _ et _ => et
  | .frame _ _ _ et _ _ => et

/-- Python attribute access `section.size`: present only on `FrameSection`;
raises `AttributeError` on a `ShellSection`. -/
def SectionVal.getSize : SectionVal → Except PyErr (ℚ × ℚ)
  | .frame _ _ _ _ size _ => .ok size
  | .shell _ _ _ _ _ => .error .attributeError

/-- Python attribute access `section.thickness`: present only on
`ShellSection`; raises `AttributeError` on a `FrameSection`. -/
def SectionVal.getThickness : SectionVal → Except PyErr ℚ
  | .shell _ _ _ _ th => .ok th
  | .frame _ _ _ _ _ _ => .error .attributeError

/-- Python attribute access `section.transf_tag`: present only on
`FrameSection`; raises `AttributeError` on a `ShellSection`. -/
def SectionVal.getTransfTag : SectionVal → Except PyErr Nat
  | .frame _ _ _ _ _ tt => .ok tt
  | .shell _ _ _ _ _ => .error .attributeError

/-- `ShellSection.__post_init__` (`sections.py` lines 20-27 and 87-93):
base checks (`tag > 0`, non-empty `section_type` and `element_type`), then
`element_type == 'slab'` and `thickness > 0`; `ValueError` otherwise. -/
def mkShellSection (tag : Nat) (section_type : String)
    (properties : List (String × String)) (element_type : String)
    (thickness : ℚ) : Except PyErr SectionVal :=
  if tag = 0 then .error .valueError
  else if section_type = "" then .error .valueError
  else if element_type = "" then .error .valueError
  else if element_type ≠ "slab" then .error .valueError
  else if thickness ≤ 0 then .error .valueError
  else .ok (.shell tag section_type properties element_type thickness)

/-- `FrameSection.__post_init__` (`sections.py` lines 20-27 and 47-55):
base checks, `element_type ∈ {'column', 'beam'}`, and `transf_tag > 0`
(the 2-tuple `size` always satisfies the length check); `ValueError`
otherwise. -/
def mkFrameSection (tag : Nat) (section_type : String)
    (properties : List (String × String)) (element_type : String)
    (size : ℚ × ℚ) (transf_tag : Nat) : Except PyErr SectionVal :=
  if tag = 0 then .error .valueError
  else if section_type = "" then .error .valueError
  else if element_type = "" then .error .valueError
  else if ¬ (element_type ∈ ["column", "beam"]) then .error .valueError
  else if transf_tag = 0 then .error .valueError
  else .ok (.frame tag section_type properties element_type size transf_tag)

/-- A geometric transformation record
`{'type': ..., 'vecxz': [x, y, z]}` (`sections_builder.py` lines 94-108). -/
structure Transf where
  ttype : String
  vecxz : List Int
  deriving DecidableEq, Repr

/-- `src/src/domain/sections.py`, class `Sections`: container of the section
map and the transformation map. -/
structure SectionsAgg where
  sections : List (Nat × SectionVal)
  transformations : List (Nat × Transf)
  deriving DecidableEq, Repr

/-- `Sections.__post_init__` (`sections.py` lines 124-127): at least one
section is required. -/
def mkSectionsAgg (sections : List (Nat × SectionVal))
    (transformations : List (Nat × Transf)) : Except PyErr SectionsAgg :=
  if sections = [] then .error .valueError
  else .ok { sections := sections, transformations := transformations }

/-- The `fixed_params` dictionary consumed by
`SectionsBuilder._create_sections`; only the three section-size keys are
read (`sections_builder.py` lines 61, 70, 80). -/
structure FixedParams where
  slab_thickness : Option ℚ := none
  column_size : Option (ℚ × ℚ) := none
  beam_size : Option (ℚ × ℚ) := none
  deriving DecidableEq, Repr

/-- `material_name = material.name if material else None;
properties = {'material_name': material_name} if material_name else {}`
(`sections_builder.py` lines 53-59; the empty string is falsy). -/
def materialProps : Option Material → List (String × String)
  | some m => if m.name = "" then [] else [("material_name", m.name)]
  | none => []

/-- `SectionsBuilder._create_sections` (`sections_builder.py` lines 38-84):
section 1 = slab shell (`thickness` default 0.10), section 2 = column frame
(size default (0.40, 0.40), `transf_tag = 4`), section 3 = beam frame
(size default (0.25, 0.40), `transf_tag = 5`). -/
def SectionsBuilder.createSections (fp : FixedParams)
    (material : Option Material) :
    Except PyErr (List (Nat × SectionVal)) := do
  let s1 ← mkShellSection 1 "ElasticMembranePlateSection"
    (materialProps material) "slab" (fp.slab_thickness.getD (1/10))
  let s2 ← mkFrameSection 2 "Elastic" (materialProps material) "column"
    (fp.column_size.getD (2/5, 2/5)) 4
  let s3 ← mkFrameSection 3 "Elastic" (materialProps material) "beam"
    (fp.beam_size.getD (1/4, 2/5)) 5
  pure [(1, s1), (2, s2), (3, s3)]

/-- `SectionsBuilder._create_transformations` (`sections_builder.py` lines
86-108): transformation 4 for columns (`vecxz = [0, 1, 0]`) and
transformation 5 for beams (`vecxz = [0, 0, 1]`). -/
def SectionsBuilder.createTransformations : List (Nat × Transf) :=
  [(4, { ttype := "Linear", vecxz := [0, 1, 0] }),
   (5, { ttype := "Linear", vecxz := [0, 0, 1] })]

/-- `SectionsBuilder.create` (`sections_builder.py` lines 15-36). -/
def SectionsBuilder.create (fp : FixedParams) (material : Option Material) :
    Except PyErr SectionsAgg := do
  let sections ← SectionsBuilder.createSections fp material
  mkSectionsAgg sections SectionsBuilder.createTransformations

/-! ### C7: sections and transformations inventory -/

/-- C7 counterexample: the transformation tags do not form an independent
namespace starting at 1 — with the default section sizes the created
transformation map has exactly the keys 4 and 5, and 1 is not among them. -/
theorem SectionsBuilder.transformation_tags_counterexample :
    (SectionsBuilder.create {} none).toOption.map
        (fun s => s.transformations.map Prod.fst) = some [4, 5] ∧
    (SectionsBuilder.create {} none).toOption.map
        (fun s => (s.transformations.map Prod.fst).contains 1) =
      some false := by
  have hc : SectionsBuilder.create {} none =
      .ok { sections :=
              [(1, .shell 1 "ElasticMembranePlateSection" [] "slab" (1/10)),
               (2, .frame 2 "Elastic" [] "column" (2/5, 2/5) 4),
               (3, .frame 3 "Elastic" [] "beam" (1/4, 2/5) 5)]
            transformations :=
              [(4, { ttype := "Linear", vecxz := [0, 1, 0] }),
               (5, { ttype := "Linear", vecxz := [0, 0, 1] })] } := by
    unfold SectionsBuilder.create SectionsBuilder.createSections
      mkShellSection mkFrameSection mkSectionsAgg
      SectionsBuilder.createTransformations
    rw [if_neg (by norm_num :
      ¬ (({} : FixedParams).slab_thickness.getD (1/10) ≤ 0))]
    rfl
  rw [hc]
  constructor <;> rfl

/-- C7 (amended): for every parameter dictionary and optional material,
`SectionsBuilder.create` succeeds exactly when the slab thickness (default
0.10) is positive, and then produces exactly one ShellSection (tag 1, for
slabs), two FrameSections (tag 2 for columns referencing transformation 4,
tag 3 for beams referencing transformation 5), and exactly two
Transformations — tagged 4 (vertical members, reference axis `[0,1,0]`) and
5 (horizontal members, reference axis `[0,0,1]`); the transformation tags
continue after the section tags rather than forming their own namespace
starting at 1. -/
theorem SectionsBuilder.create_inventory (fp : FixedParams)
    (material : Option Material) :
    SectionsBuilder.create fp material =
      if fp.slab_thickness.getD (1/10) ≤ 0 then .error .valueError
      else .ok
        { sections :=
            [(1, .shell 1 "ElasticMembranePlateSection"
                (materialProps material) "slab"
                (fp.slab_thickness.getD (1/10))),
             (2, .frame 2 "Elastic" (materialProps material) "column"
                (fp.column_size.getD (2/5, 2/5)) 4),
             (3, .frame 3 "Elastic" (materialProps material) "beam"
                (fp.beam_size.getD (1/4, 2/5)) 5)]
          transformations :=
            [(4, { ttype := "Linear", vecxz := [0, 1, 0] }),
             (5, { ttype := "Linear", vecxz := [0, 0, 1] })] } := by
  unfold SectionsBuilder.create SectionsBuilder.createSections
    mkShellSection mkFrameSection mkSectionsAgg
    SectionsBuilder.createTransformations
  by_cases h : fp.slab_thickness.getD (1/10) ≤ 0
  · rw [if_pos h, if_pos h]
    rfl
  · rw [if_neg h, if_neg h]
    rfl

/-! ### C10: material validation and derived shear modulus -/

/-- C10: constructing a `Material` succeeds exactly when `E > 0`,
`0 ≤ nu ≤ 0.5` and `rho > 0` (otherwise it is rejected with `ValueError`),
and in that case the shear modulus reported by the serialized material
document is derived as `E / (2·(1+nu))` (the `Material` record has no `G`
field, so the value can never be stored or set independently). -/
theorem mkMaterial_valid_iff_toDict_G (E nu rho : ℚ) (fc fy : Option ℚ)
    (name : String) :
    (mkMaterial E nu rho fc fy name).map (fun m => (Material.toDict m).G) =
      if 0 < E ∧ (0 ≤ nu ∧ nu ≤ 1/2) ∧ 0 < rho then
        .ok (E / (2 * (1 + nu)))
      else .error .valueError := by
  unfold mkMaterial Material.toDict Material.G
  by_cases h1 : E ≤ 0
  · rw [if_pos h1, if_neg (by rintro ⟨hE, -⟩; exact absurd hE (not_lt.mpr h1))]
    rfl
  · rw [if_neg h1]
    by_cases h2 : 0 ≤ nu ∧ nu ≤ 1/2
    · rw [if_neg (not_not_intro h2)]
      by_cases h3 : rho ≤ 0
      · rw [if_pos h3,
          if_neg (by rintro ⟨-, -, hr⟩; exact absurd hr (not_lt.mpr h3))]
        rfl
      · rw [if_neg h3, if_pos ⟨by linarith, h2, by linarith⟩]
        rfl
    · rw [if_pos h2, if_neg (by rintro ⟨-, hnu, -⟩; exact h2 hnu)]
      rfl

/-! ### Analysis configuration (`src/src/domain/analysis_config.py`,
`src/src/builders/analysis_config_builder.py`) -/

/-- `StaticConfig` dataclass with its field defaults
(`analysis_config.py` lines 11-20). -/
structure StaticConfig where
  system : String := "BandGeneral"
  numberer : String := "RCM"
  constraints : String := "Plain"
  integrator : String := "LoadControl"
  algorithm : String := "Linear"
  analysis : String := "Static"
  steps : Nat := 10
  deriving DecidableEq, Repr

/-- `ModalConfig` dataclass with its field defaults (lines 23-32). -/
structure ModalConfig where
  system : String := "BandGeneral"
  numberer : String := "RCM"
  constraints : String := "Plain"
  integrator : String := "LoadControl"
  algorithm : String := "Linear"
  analysis : String := "Static"
  num_modes : Nat := 6
  deriving DecidableEq, Repr

/-- `DynamicConfig` dataclass with its field defaults (lines 35-45). -/
structure DynamicConfig where
  system : String := "BandGeneral"
  numberer : String := "RCM"
  constraints : String := "Plain"
  integrator : String := "Newmark"
  algorithm : String := "Newton"
  analysis : String := "Transient"
  dt : ℚ := 1/100
  num_steps : Nat := 1000
  deriving DecidableEq, Repr

/-- `VisualizationConfig` dataclass with its field defaults (lines 48-57):
disabled by default, deformation scale 100, node markers on. -/
structure VisualizationConfig where
  enabled : Bool := false
  static_deformed : Bool := false
  modal_shapes : Bool := false
  deform_scale : Nat := 100
  save_html : Bool := true
  show_nodes : Bool := true
  line_width : Nat := 2
  deriving DecidableEq, Repr

/-- Caller-supplied override keys for the static sub-config
(`analysis_params.get('static', {})`). -/
structure StaticParams where
  system : Option String := none
  numberer : Option String := none
  constraints : Option String := none
  integrator : Option String := none
  algorithm : Option String := none
  analysis : Option String := none
  steps : Option Nat := none
  deriving DecidableEq, Repr

/-- Caller-supplied override keys for the modal sub-config. -/
structure ModalParams where
  system : Option String := none
  numberer : Option String := none
  constraints : Option String := none
  integrator : Option String := none
  algorithm : Option String := none
  analysis : Option String := none
  num_modes : Option Nat := none
  deriving DecidableEq, Repr

/-- Caller-supplied override keys for the dynamic sub-config. -/
structure DynamicParams where
  system : Option String := none
  numberer : Option String := none
  constraints : Option String := none
  integrator : Option String := none
  algorithm : Option String := none
  analysis : Option String := none
  dt : Option ℚ := none
  num_steps : Option Nat := none
  deriving DecidableEq, Repr

/-- Caller-supplied override keys for the visualization sub-config. -/
structure VizParams where
  enabled : Option Bool := none
  static_deformed : Option Bool := none
  modal_shapes : Option Bool := none
  deform_scale : Option Nat := none
  save_html : Option Bool := none
  show_nodes : Option Bool := none
  line_width : Option Nat := none
  deriving DecidableEq, Repr

/-- The `analysis_params` dictionary of per-kind override sub-dictionaries
(`analysis_params.get('static'/'modal'/'dynamic'/'visualization', {})`). -/
structure AnalysisParams where
  static : StaticParams := {}
  modal : ModalParams := {}
  dynamic : DynamicParams := {}
  visualization : VizParams := {}
  deriving DecidableEq, Repr

/-- `AnalysisConfig` dataclass fields (`analysis_config.py` lines 60-67). -/
structure AnalysisConfig where
  enabled_analyses : List String
  static_config : Option StaticConfig := none
  modal_config : Option ModalConfig := none
  dynamic_config : Option DynamicConfig := none
  visualization_config : Option VisualizationConfig := none
  deriving DecidableEq, Repr

/-- `AnalysisConfig.__post_init__` (`analysis_config.py` lines 69-86):
rejects an empty `enabled_analyses` with `ValueError`; fills a missing
visualization config with the defaults; fills a missing static/modal/dynamic
config with the dataclass defaults when (and only when) its kind appears in
`enabled_analyses`. -/
def mkAnalysisConfig (enabled : List String)
    (static_config : Option StaticConfig) (modal_config : Option ModalConfig)
    (dynamic_config : Option DynamicConfig)
    (visualization_config : Option VisualizationConfig) :
    Except PyErr AnalysisConfig :=
  if enabled = [] then .error .valueError
  else .ok
    { enabled_analyses := enabled
      static_config :=
        match static_config with
        | some s => some s
        | none => if "static" ∈ enabled then some {} else none
      modal_config :=
        match modal_config with
        | some m => some m
        | none => if "modal" ∈ enabled then some {} else none
      dynamic_config :=
        match dynamic_config with
        | some d => some d
        | none => if "dynamic" ∈ enabled then some {} else none
      visualization_config := some (visualization_config.getD {}) }

/-- `AnalysisConfigBuilder._create_static_config`
(`analysis_config_builder.py` lines 72-91): merge overrides with the fixed
defaults, override winning per key. -/
def AnalysisConfigBuilder.createStaticConfig (p : StaticParams) :
    StaticConfig :=
  { system := p.system.getD "BandGeneral"
    numberer := p.numberer.getD "RCM"
    constraints := p.constraints.getD "Plain"
    integrator := p.integrator.getD "LoadControl"
    algorithm := p.algorithm.getD "Linear"
    analysis := p.analysis.getD "Static"
    steps := p.steps.getD 10 }

/-- `AnalysisConfigBuilder._create_modal_config` (lines 93-112). -/
def AnalysisConfigBuilder.createModalConfig (p : ModalParams) : ModalConfig :=
  { system := p.system.getD "BandGeneral"
    numberer := p.numberer.getD "RCM"
    constraints := p.constraints.getD "Plain"
    integrator := p.integrator.getD "LoadControl"
    algorithm := p.algorithm.getD "Linear"
    analysis := p.analysis.getD "Static"
    num_modes := p.num_modes.getD 6 }

/-- `AnalysisConfigBuilder._create_dynamic_config` (lines 114-134). -/
def AnalysisConfigBuilder.createDynamicConfig (p : DynamicParams) :
    DynamicConfig :=
  { system := p.system.getD "BandGeneral"
    numberer := p.numberer.getD "RCM"
    constraints := p.constraints.getD "Plain"
    integrator := p.integrator.getD "Newmark"
    algorithm := p.algorithm.getD "Newton"
    analysis := p.analysis.getD "Transient"
    dt := p.dt.getD (1/100)
    num_steps := p.num_steps.getD 1000 }

/-- `AnalysisConfigBuilder._create_visualization_config` (lines 136-155). -/
def AnalysisConfigBuilder.createVisualizationConfig (p : VizParams) :
    VisualizationConfig :=
  { enabled := p.enabled.getD false
    static_deformed := p.static_deformed.getD false
    modal_shapes := p.modal_shapes.getD false
    deform_scale := p.deform_scale.getD 100
    save_html := p.save_html.getD true
    show_nodes := p.show_nodes.getD true
    line_width := p.line_width.getD 2 }

/-- `AnalysisConfigBuilder.create` (`analysis_config_builder.py` lines
27-70): always builds the visualization config; builds each of the
static/modal/dynamic sub-configs only when its kind appears in
`enabled_analyses`; then constructs `AnalysisConfig` (whose validation runs
as `__post_init__`). -/
def AnalysisConfigBuilder.create (enabled : List String)
    (params : AnalysisParams) : Except PyErr AnalysisConfig :=
  mkAnalysisConfig enabled
    (if "static" ∈ enabled then
      some (AnalysisConfigBuilder.createStaticConfig params.static)
    else none)
    (if "modal" ∈ enabled then
      some (AnalysisConfigBuilder.createModalConfig params.modal)
    else none)
    (if "dynamic" ∈ enabled then
      some (AnalysisConfigBuilder.createDynamicConfig params.dynamic)
    else none)
    (some (AnalysisConfigBuilder.createVisualizationConfig
      params.visualization))

/-! ### C8: enabled kinds and sub-config presence -/

/-- C8: whenever `AnalysisConfigBuilder.create` returns a config, the
static/modal/dynamic sub-config is non-null exactly when its kind appears in
`enabled_analyses` (an absent kind's sub-config is omitted, not defaulted),
the visualization sub-config is always present; and concretely
`enabled_kinds = ['modal']` with override `{'modal': {'num_modes': 10}}`
yields no static config, no dynamic config, a modal config with
`num_modes = 10` (all other keys at their defaults), and a visualization
config that is present and disabled. -/
theorem AnalysisConfigBuilder.create_enabled_iff
    (enabled : List String) (params : AnalysisParams) (cfg : AnalysisConfig)
    (hok : AnalysisConfigBuilder.create enabled params = .ok cfg) :
    (cfg.static_config.isSome ↔ "static" ∈ enabled) ∧
    (cfg.modal_config.isSome ↔ "modal" ∈ enabled) ∧
    (cfg.dynamic_config.isSome ↔ "dynamic" ∈ enabled) ∧
    cfg.visualization_config.isSome = true ∧
    AnalysisConfigBuilder.create ["modal"]
        { modal := { num_modes := some 10 } } =
      .ok { enabled_analyses := ["modal"]
            static_config := none
            modal_config := some { num_modes := 10 }
            dynamic_config := none
            visualization_config := some { enabled := false } } := by
  unfold AnalysisConfigBuilder.create mkAnalysisConfig at hok
  by_cases he : enabled = []
  · rw [if_pos he] at hok
    exact absurd hok (by simp)
  · rw [if_neg he] at hok
    have hcfg := (Except.ok.inj hok).symm
    subst hcfg
    refine ⟨?_, ?_, ?_, rfl, rfl⟩
    · by_cases hm : "static" ∈ enabled <;> simp [hm]
    · by_cases hm : "modal" ∈ enabled <;> simp [hm]
    · by_cases hm : "dynamic" ∈ enabled <;> simp [hm]

/-- Closed instance of `AnalysisConfigBuilder.create_enabled_iff` at
`enabled_kinds = ['static']` with no overrides: the static sub-config is
present. -/
theorem AnalysisConfigBuilder.create_enabled_iff_witness :
    (({ enabled_analyses := ["static"], static_config := some {},
        modal_config := none, dynamic_config := none,
        visualization_config := some {} } :
        AnalysisConfig).static_config.isSome ↔ "static" ∈ ["static"]) :=
  (AnalysisConfigBuilder.create_enabled_iff ["static"] {}
    { enabled_analyses := ["static"], static_config := some {},
      modal_config := none, dynamic_config := none,
      visualization_config := some {} } rfl).1

/-! ### C9: validation of `enabled_kinds` -/

/-- C9 counterexample: `AnalysisConfigBuilder.create` silently accepts the
unrecognized kind `'seismic'` — instead of failing it returns a config that
enables `'seismic'` and carries no analysis sub-config at all. -/
theorem AnalysisConfigBuilder.create_accepts_unrecognized_kind :
    AnalysisConfigBuilder.create ["seismic"] {} =
      .ok { enabled_analyses := ["seismic"]
            static_config := none
            modal_config := none
            dynamic_config := none
            visualization_config := some { enabled := false } } := rfl

/-- C9 (amended): `AnalysisConfigBuilder.create` fails (with the
`ValueError` raised by `AnalysisConfig.__post_init__`) exactly when
`enabled_kinds` is empty; a kind outside `{static, modal, dynamic}` is
silently accepted and merely enables no sub-config of its own. -/
theorem AnalysisConfigBuilder.create_isOk_iff_nonempty
    (enabled : List String) (params : AnalysisParams) :
    (AnalysisConfigBuilder.create enabled params).isOk = !enabled.isEmpty := by
  unfold AnalysisConfigBuilder.create mkAnalysisConfig
  cases enabled with
  | nil => rfl
  | cons a l =>
    rw [if_neg (by simp)]
    rfl

/-! ### Decimal-string tag keys (Python `str(tag)` / `int(key)`) -/

/-- The decimal digit characters used by Python's `str()`. -/
def digitChar : Nat → Char
  | 0 => '0'
  | 1 => '1'
  | 2 => '2'
  | 3 => '3'
  | 4 => '4'
  | 5 => '5'
  | 6 => '6'
  | 7 => '7'
  | 8 => '8'
  | 9 => '9'
  | _ => '?'

/-- `str(n)` for a non-negative integer: the most-significant-first decimal
rendering (the case `n = 0` renders as the single digit `'0'`). -/
def strOfTag (n : Nat) : String :=
  if n = 0 then String.mk [digitChar 0]
  else String.mk (((Nat.digits 10 n).map digitChar).reverse)

/-- Numeric value of a decimal digit character. -/
def digitVal (c : Char) : Nat := c.toNat - 48

/-- `int(s)` for a decimal-digit string. -/
def tagOfStr (s : String) : Nat :=
  Nat.ofDigits 10 ((s.data.map digitVal).reverse)

theorem digitVal_digitChar : ∀ d : Nat, d < 10 →
    digitVal (digitChar d) = d := by decide

/-- `int(str(n)) = n`: the decimal key conversion is lossless. -/
theorem tagOfStr_strOfTag (n : Nat) : tagOfStr (strOfTag n) = n := by
  unfold strOfTag tagOfStr
  by_cases h : n = 0
  · subst h
    rw [if_pos rfl]
    decide
  · rw [if_neg h]
    show Nat.ofDigits 10
      ((((Nat.digits 10 n).map digitChar).reverse.map digitVal).reverse) = n
    rw [List.map_reverse, List.reverse_reverse, List.map_map]
    have hmap : (Nat.digits 10 n).map (digitVal ∘ digitChar) =
        (Nat.digits 10 n).map id := by
      apply List.map_congr_left
      intro d hd
      exact digitVal_digitChar d (Nat.digits_lt_base (by norm_num) hd)
    rw [hmap, List.map_id]
    exact Nat.ofDigits_digits 10 n

/-! ### Geometry serialization (`src/src/domain/geometry.py` lines 27-44,
65-84, 156-172) -/

/-- The dictionary produced by `Node.to_dict` (`geometry.py` lines 27-34);
`grid_pos` is listified (`list(self.grid_pos) if self.grid_pos else
None`). -/
structure NodeDoc where
  tag : Nat
  coords : List ℚ
  floor : Nat
  grid_pos : Option (List Nat)
  deriving DecidableEq, Repr

/-- `Node.to_dict`. -/
def Node.toDictEntry (n : Node) : NodeDoc :=
  { tag := n.tag, coords := n.coords, floor := n.floor,
    grid_pos := n.grid_pos.map (fun p => [p.1, p.2]) }

/-- `Node.__post_init__` re-run by `Node.from_dict`: the coordinate list
must have exactly 3 entries (`geometry.py` lines 20-25). -/
def mkNodeChecked (tag : Nat) (coords : List ℚ) (floor : Nat)
    (grid_pos : Option (Nat × Nat)) : Except PyErr Node :=
  if coords.length ≠ 3 then .error .valueError
  else .ok { tag := tag, coords := coords, floor := floor,
             grid_pos := grid_pos }

/-- `Node.from_dict` (`geometry.py` lines 36-44):
`tuple(data['grid_pos']) if data['grid_pos'] else None` (an empty list is
falsy).  The repository only ever produces 2-element grid positions; a
list of any other length would produce a tuple outside the `(i, j)` shape
of the `Node` model and is mapped to a `TypeError` here. -/
def Node.fromDict (d : NodeDoc) : Except PyErr Node :=
  match d.grid_pos with
  | none => mkNodeChecked d.tag d.coords d.floor none
  | some [] => mkNodeChecked d.tag d.coords d.floor none
  | some [i, j] => mkNodeChecked d.tag d.coords d.floor (some (i, j))
  | some _ => .error .typeError

/-- The dictionary produced by `Element.to_dict` (`geometry.py` lines
65-73). -/
structure ElemDoc where
  tag : Nat
  element_type : String
  nodes : List Nat
  floor : Nat
  section_tag : Nat
  deriving DecidableEq, Repr

/-- `Element.to_dict`. -/
def Element.toDictEntry (e : Element) : ElemDoc :=
  { tag := e.tag, element_type := e.element_type, nodes := e.nodes,
    floor := e.floor, section_tag := e.section_tag }

/-- `Element.__post_init__` re-run by `Element.from_dict`: non-empty node
list and positive section tag (`geometry.py` lines 56-63). -/
def mkElementChecked (tag : Nat) (element_type : String) (nodes : List Nat)
    (floor : Nat) (section_tag : Nat) : Except PyErr Element :=
  if nodes = [] then .error .valueError
  else if section_tag = 0 then .error .valueError
  else .ok { tag := tag, element_type := element_type, nodes := nodes,
             floor := floor, section_tag := section_tag }

/-- `Element.from_dict` (`geometry.py` lines 75-84). -/
def Element.fromDict (d : ElemDoc) : Except PyErr Element :=
  mkElementChecked d.tag d.element_type d.nodes d.floor d.section_tag

/-- The document produced by `Geometry.to_dict` (`geometry.py` lines
156-161): both maps keyed by `str(tag)`. -/
structure GeoDoc where
  nodes : List (String × NodeDoc)
  elements : List (String × ElemDoc)
  deriving DecidableEq, Repr

/-- `Geometry.to_dict`: `{str(k): v.to_dict() for k, v in ...}`. -/
def GeometryData.toDict (g : GeometryData) : GeoDoc :=
  { nodes := g.nodes.map (fun p => (strOfTag p.1, p.2.toDictEntry))
    elements := g.elements.map (fun p => (strOfTag p.1, p.2.toDictEntry)) }

/-- `Geometry.from_dict` (`geometry.py` lines 163-172):
`{int(k): Node.from_dict(v) for ...}` for both maps, then the `Geometry`
constructor whose `__post_init__` (lines 93-98) rejects empty node or
element maps.  No referential check of `section_tag` against any section
map is performed. -/
def GeometryData.fromDict (d : GeoDoc) : Except PyErr GeometryData := do
  let nodes ← d.nodes.mapM (fun p => do
    let n ← Node.fromDict p.2
    pure (tagOfStr p.1, n))
  let elements ← d.elements.mapM (fun p => do
    let e ← Element.fromDict p.2
    pure (tagOfStr p.1, e))
  if nodes = [] then .error .valueError
  else if elements = [] then .error .valueError
  else pure { nodes := nodes, elements := elements }

theorem nodeDoc_roundtrip (n : Node) (h : n.coords.length = 3) :
    Node.fromDict n.toDictEntry = .ok n := by
  obtain ⟨tag, coords, floor, gp⟩ := n
  cases gp with
  | none =>
    simp only [Node.toDictEntry, Node.fromDict, Option.map_none']
    unfold mkNodeChecked
    rw [if_neg (by simp_all)]
  | some p =>
    obtain ⟨i, j⟩ := p
    simp only [Node.toDictEntry, Node.fromDict, Option.map_some']
    unfold mkNodeChecked
    rw [if_neg (by simp_all)]

theorem elemDoc_roundtrip (e : Element) (h1 : e.nodes ≠ [])
    (h2 : e.section_tag ≠ 0) :
    Element.fromDict e.toDictEntry = .ok e := by
  obtain ⟨tag, et, nodes, floor, st⟩ := e
  simp only [Element.toDictEntry, Element.fromDict]
  unfold mkElementChecked
  rw [if_neg (by simp_all), if_neg (by simp_all)]

theorem nodesMapM_roundtrip (l : List (Nat × Node))
    (hwf : ∀ p ∈ l, p.2.coords.length = 3) :
    (l.map fun p => (strOfTag p.1, p.2.toDictEntry)).mapM
      (fun p => do
        let n ← Node.fromDict p.2
        pure (tagOfStr p.1, n)) = .ok l := by
  induction l with
  | nil => rfl
  | cons p rest ih =>
    simp only [List.map_cons, List.mapM_cons,
      nodeDoc_roundtrip p.2 (hwf p (by simp)), tagOfStr_strOfTag,
      ih (fun q hq => hwf q (by simp [hq]))]
    rfl

theorem elemsMapM_roundtrip (l : List (Nat × Element))
    (hwf : ∀ p ∈ l, p.2.nodes ≠ [] ∧ p.2.section_tag ≠ 0) :
    (l.map fun p => (strOfTag p.1, p.2.toDictEntry)).mapM
      (fun p => do
        let e ← Element.fromDict p.2
        pure (tagOfStr p.1, e)) = .ok l := by
  induction l with
  | nil => rfl
  | cons p rest ih =>
    simp only [List.map_cons, List.mapM_cons,
      elemDoc_roundtrip p.2 (hwf p (by simp)).1
        (hwf p (by simp)).2, tagOfStr_strOfTag,
      ih (fun q hq => hwf q (by simp [hq]))]
    rfl

/-! ### StructuralModel and its serialization
(`src/src/domain/structural_model.py`) -/

/-- A JSON-dictionary key as produced by `StructuralModel.to_dict`: Python
keeps whatever key type the code uses, so integer tags and decimal strings
are distinguishable in the in-memory document. -/
inductive JKey where
  | int (n : Nat)
  | str (s : String)
  deriving DecidableEq, Repr

/-- Per-node entry of `StructuralModel.to_dict` (lines 48-54): `coords`,
`floor` and the `grid_pos` tuple, stored under the integer tag key. -/
structure SMNodeEntry where
  coords : List ℚ
  floor : Nat
  grid_pos : Option (Nat × Nat)
  deriving DecidableEq, Repr

/-- Per-element entry of `StructuralModel.to_dict` (lines 56-64). -/
structure SMElemEntry where
  etype : String
  nodes : List Nat
  floor : Nat
  section_tag : Nat
  deriving DecidableEq, Repr

/-- Per-section entry of `StructuralModel.to_dict` (lines 66-81): the base
data plus the conditionally-included keys. -/
structure SMSectionEntry where
  stype : String
  properties : List (String × String)
  element_type : Option String
  size : Option (ℚ × ℚ)
  thickness : Option ℚ
  transf_tag : Option Nat
  deriving DecidableEq, Repr

/-- Per-load entry of `StructuralModel.to_dict` (lines 83-92). -/
structure SMLoadEntry where
  ltype : String
  value : ℚ
  direction : String
  load_case : Option String
  deriving DecidableEq, Repr

/-- The `parameters` sub-dictionary of `StructuralModel.to_dict` (lines
115-123), read from the geometry aggregate. -/
structure SMParamsEntry where
  L_B_ratio : ℚ
  nx : Nat
  ny : Nat
  L : ℚ
  B : ℚ
  num_floors : Nat
  floor_height : ℚ
  deriving DecidableEq, Repr

/-- The `analysis_config` sub-dictionary of `StructuralModel.to_dict`
(lines 94-111). -/
structure SMAnalysisEntry where
  enabled_analyses : List String
  visualization : Option VisualizationConfig
  static : Option StaticConfig
  modal : Option ModalConfig
  dynamic : Option DynamicConfig
  deriving DecidableEq, Repr

/-- The top-level document of `StructuralModel.to_dict` (lines 113-130). -/
structure SMDoc where
  name : String
  parameters : SMParamsEntry
  nodes : List (JKey × SMNodeEntry)
  elements : List (JKey × SMElemEntry)
  sections : List (JKey × SMSectionEntry)
  transformations : List (JKey × Transf)
  loads : List (JKey × SMLoadEntry)
  analysis_config : SMAnalysisEntry
  deriving DecidableEq, Repr

/-- `src/src/domain/structural_model.py`, class `StructuralModel`
(dataclass fields; `__post_init__` additionally rejects an empty name,
which none of the claims exercises). -/
structure StructuralModel where
  geometry : Geometry
  sections : SectionsAgg
  loads : LoadManager
  analysis_config : AnalysisConfig
  name : String
  deriving DecidableEq, Repr

/-- `geometry.get_aspect_ratio()` as used by `StructuralModel.to_dict`
(line 116) and `get_model_summary`: `L / B` on the effective geometry
aggregate (like the six scalar fields, this accessor is exercised by the
repository's tests but missing from the declared two-field dataclass). -/
def Geometry.get_aspect_ratio (g : Geometry) : ℚ := g.L / g.B

/-- The nodes mapping built by `StructuralModel.to_dict` (lines 47-54):
keyed by the **integer** tag (`nodes_dict[tag] = {...}`), with no string
conversion, and the `grid_pos` tuple stored as-is. -/
def StructuralModel.nodesDict (m : StructuralModel) :
    List (JKey × SMNodeEntry) :=
  m.geometry.nodes.map fun p =>
    (JKey.int p.1,
      { coords := p.2.coords, floor := p.2.floor, grid_pos := p.2.grid_pos })

/-- The elements mapping built by `StructuralModel.to_dict` (lines 56-64):
keyed by the integer tag. -/
def StructuralModel.elementsDict (m : StructuralModel) :
    List (JKey × SMElemEntry) :=
  m.geometry.elements.map fun p =>
    (JKey.int p.1,
      { etype := p.2.element_type, nodes := p.2.nodes, floor := p.2.floor,
        section_tag := p.2.section_tag })

/-- The per-section serialization of `StructuralModel.to_dict` (lines
67-81).  The truthiness guards `if section.element_type:`,
`if section.size:`, `if section.thickness:`, `if section.transf_tag:` are
attribute accesses on `section`: `size`/`transf_tag` exist only on
`FrameSection` and `thickness` only on `ShellSection`, so the access
raises `AttributeError` for every section variant (on `section.size` for a
shell, on `section.thickness` for a frame). -/
def sectionEntryM (s : SectionVal) : Except PyErr SMSectionEntry := do
  let element_type :=
    if s.element_type = "" then none else some s.element_type
  let size ← s.getSize
  let thickness ← s.getThickness
  let transf_tag ← s.getTransfTag
  pure { stype := s.section_type
         properties := s.properties
         element_type := element_type
         size := some size
         thickness := if thickness = 0 then none else some thickness
         transf_tag := if transf_tag = 0 then none else some transf_tag }

/-- The sections mapping of `StructuralModel.to_dict` (lines 66-81), keyed
by the integer tag. -/
def StructuralModel.sectionsDictM (m : StructuralModel) :
    Except PyErr (List (JKey × SMSectionEntry)) :=
  m.sections.sections.mapM fun p => do
    let e ← sectionEntryM p.2
    pure (JKey.int p.1, e)

/-- The loads mapping of `StructuralModel.to_dict` (lines 83-92), keyed by
the integer node tag; `load_case` is included only when truthy. -/
def StructuralModel.loadsDict (m : StructuralModel) :
    List (JKey × SMLoadEntry) :=
  m.loads.loads.map fun p =>
    (JKey.int p.1,
      { ltype := p.2.load_type, value := p.2.value,
        direction := p.2.direction,
        load_case := p.2.load_case.bind
          (fun c => if c = "" then none else some c) })

/-- The analysis-config sub-dictionary of `StructuralModel.to_dict`
(lines 94-111). -/
def StructuralModel.analysisDict (m : StructuralModel) : SMAnalysisEntry :=
  { enabled_analyses := m.analysis_config.enabled_analyses
    visualization := m.analysis_config.visualization_config
    static := m.analysis_config.static_config
    modal := m.analysis_config.modal_config
    dynamic := m.analysis_config.dynamic_config }

/-- `StructuralModel.to_dict` (lines 40-130): the four entity loops in
source order (the sections loop raises), the `parameters` sub-dictionary
read from the geometry, and the transformations dictionary passed through
unchanged (integer keys). -/
def StructuralModel.toDict (m : StructuralModel) : Except PyErr SMDoc := do
  let nodes := m.nodesDict
  let elements := m.elementsDict
  let sections ← m.sectionsDictM
  let loads := m.loadsDict
  pure { name := m.name
         parameters :=
           { L_B_ratio := m.geometry.get_aspect_ratio
             nx := m.geometry.nx
             ny := m.geometry.ny
             L := m.geometry.L
             B := m.geometry.B
             num_floors := m.geometry.num_floors
             floor_height := m.geometry.floor_height }
         nodes := nodes
         elements := elements
         sections := sections
         transformations :=
           m.sections.transformations.map (fun p => (JKey.int p.1, p.2))
         loads := loads
         analysis_config := m.analysisDict }

/-- `StructuralModel.load` (lines 149-166) stripped of its file I/O: after
parsing the document it unconditionally raises `NotImplementedError`
("Model loading from JSON will be implemented in a future version"); the
class has no `from_dict` method at all. -/
def StructuralModel.loadFromData (_data : SMDoc) :
    Except PyErr StructuralModel :=
  .error .notImplementedError

/-! ### A concrete assembled model -/

/-- The sections aggregate produced by `SectionsBuilder.create` with the
default fixed parameters and no material (cf. `sections_builder.py` lines
55-108), written out as a literal value. -/
def sampleSections : SectionsAgg :=
  { sections :=
      [(1, .shell 1 "ElasticMembranePlateSection" [] "slab" (1/10)),
       (2, .frame 2 "Elastic" [] "column" (2/5, 2/5) 4),
       (3, .frame 3 "Elastic" [] "beam" (1/4, 2/5) 5)]
    transformations :=
      [(4, { ttype := "Linear", vecxz := [0, 1, 0] }),
       (5, { ttype := "Linear", vecxz := [0, 0, 1] })] }

/-- A concrete assembled model: the 1×1-grid single-floor geometry, the
default sections, the builder's top-floor loads and a static analysis
config. -/
def sampleModel : StructuralModel :=
  { geometry := GeometryBuilder.create (3/2) 10 1 1 1 3
    sections := sampleSections
    loads := (LoadsBuilder.create (GeometryBuilder.create (3/2) 10 1 1 1 3)
      {}).toOption.getD { loads := [], load_pattern_params := {} }
    analysis_config := (AnalysisConfigBuilder.create ["static"]
      {}).toOption.getD { enabled_analyses := ["static"] }
    name := "sample_model" }

/-- A concrete serialized document (for exercising the unimplemented
loader). -/
def sampleDoc : SMDoc :=
  { name := "sample_model"
    parameters :=
      { L_B_ratio := 3/2, nx := 1, ny := 1, L := 15, B := 10,
        num_floors := 1, floor_height := 3 }
    nodes := []
    elements := []
    sections := []
    transformations := []
    loads := []
    analysis_config :=
      { enabled_analyses := ["static"], visualization := none,
        static := none, modal := none, dynamic := none } }

/-! ### C3: the model-level round trip does not exist in the code -/

/-- C3: `from_dict(to_dict(m))` cannot succeed for any assembled model —
on the concrete assembled `sampleModel`, `StructuralModel.to_dict` already
raises `AttributeError` in its sections loop (it reads `section.size` and
`section.thickness` on both section variants, each of which lacks one of
the two), and deserialization is not implemented at all:
`StructuralModel.load` unconditionally raises `NotImplementedError` and no
`from_dict` method exists. -/
theorem StructuralModel.toDict_fails_and_load_unimplemented :
    StructuralModel.toDict sampleModel = .error .attributeError ∧
    StructuralModel.loadFromData sampleDoc = .error .notImplementedError :=
  ⟨rfl, rfl⟩

/-! ### C4: key types of the serialized documents -/

/-- C4 counterexample: the mappings built by `StructuralModel.to_dict` are
keyed by the raw integer tags, not by decimal strings — on the concrete
assembled `sampleModel` the nodes mapping has exactly the integer keys
1..8 and no string key at all. -/
theorem StructuralModel.nodesDict_integer_keys :
    (StructuralModel.nodesDict sampleModel).map Prod.fst =
      [JKey.int 1, JKey.int 2, JKey.int 3, JKey.int 4,
       JKey.int 5, JKey.int 6, JKey.int 7, JKey.int 8] ∧
    JKey.str "1" ∉ (StructuralModel.nodesDict sampleModel).map Prod.fst := by
  have hkeys : (StructuralModel.nodesDict sampleModel).map Prod.fst =
      [JKey.int 1, JKey.int 2, JKey.int 3, JKey.int 4,
       JKey.int 5, JKey.int 6, JKey.int 7, JKey.int 8] := rfl
  refine ⟨hkeys, ?_⟩
  rw [hkeys]
  decide

/-- C4 (amended): the decimal-string key rendering lives in the domain
objects' own serializers, not in `StructuralModel.to_dict`:
`Geometry.to_dict` keys every node and element entry by `str(tag)` and
`Geometry.from_dict` reverses exactly this conversion (so
`from_dict(to_dict(g))` restores the integer-keyed maps), while the
node/element/section/load mappings of `StructuralModel.to_dict` itself are
keyed by the raw integer tags (strings appear only at `json.dump` time),
and `StructuralModel` implements no loading. -/
theorem GeometryData.toDict_string_keys_roundtrip (g : GeometryData)
    (m : StructuralModel) (hne : g.nodes ≠ []) (hee : g.elements ≠ [])
    (hwfn : ∀ p ∈ g.nodes, p.2.coords.length = 3)
    (hwfe : ∀ p ∈ g.elements, p.2.nodes ≠ [] ∧ p.2.section_tag ≠ 0) :
    ((GeometryData.toDict g).nodes.map Prod.fst =
      g.nodes.map (fun p => strOfTag p.1)) ∧
    ((GeometryData.toDict g).elements.map Prod.fst =
      g.elements.map (fun p => strOfTag p.1)) ∧
    GeometryData.fromDict (GeometryData.toDict g) = .ok g ∧
    (StructuralModel.nodesDict m).map Prod.fst =
      m.geometry.nodes.map (fun p => JKey.int p.1) := by
  refine ⟨?_, ?_, ?_, ?_⟩
  · simp [GeometryData.toDict, List.map_map]
  · simp [GeometryData.toDict, List.map_map]
  · unfold GeometryData.fromDict GeometryData.toDict
    simp only [nodesMapM_roundtrip g.nodes hwfn,
      elemsMapM_roundtrip g.elements hwfe]
    show (do
      let nodes ← Except.ok g.nodes
      let elements ← Except.ok g.elements
      if nodes = [] then Except.error PyErr.valueError
      else if elements = [] then Except.error PyErr.valueError
      else pure { nodes := nodes, elements := elements } :
        Except PyErr GeometryData) = .ok g
    rw [show (do
      let nodes ← Except.ok g.nodes
      let elements ← Except.ok g.elements
      if nodes = [] then Except.error PyErr.valueError
      else if elements = [] then Except.error PyErr.valueError
      else pure { nodes := nodes, elements := elements } :
        Except PyErr GeometryData) =
      (if g.nodes = [] then Except.error PyErr.valueError
       else if g.elements = [] then Except.error PyErr.valueError
       else pure { nodes := g.nodes, elements := g.elements }) from rfl]
    rw [if_neg hne, if_neg hee]
    rfl
  · simp [StructuralModel.nodesDict, List.map_map]

/-- Closed instance of `GeometryData.toDict_string_keys_roundtrip` on the
node/element maps of the 1×1-grid single-floor geometry: the geometry
document round-trips. -/
theorem GeometryData.toDict_string_keys_roundtrip_witness :
    (GeometryData.fromDict (GeometryData.toDict
      { nodes := (GeometryBuilder.create (3/2) 10 1 1 1 3).nodes
        elements := (GeometryBuilder.create (3/2) 10 1 1 1 3).elements })).isOk
      = true := by
  obtain ⟨-, -, hrt, -⟩ := GeometryData.toDict_string_keys_roundtrip
    { nodes := (GeometryBuilder.create (3/2) 10 1 1 1 3).nodes
      elements := (GeometryBuilder.create (3/2) 10 1 1 1 3).elements }
    sampleModel (by decide) (by decide) (by decide) (by decide)
  rw [hrt]
  rfl

/-! ### Exporter section/transformation lookup
(`src/src/python_exporter.py`, `src/src/python_exporter_v2.py`) -/

/-- `python_exporter_v2.py` lines 225-229: for a frame element,
`section = sections.sections.get(section_tag);
transf_tag = section.transf_tag if section else 4`.
On a lookup miss the hard-coded default 4 is substituted silently; when
the lookup hits a shell section the attribute access raises. -/
def PythonExporterV2.resolveTransfTag (sections : List (Nat × SectionVal))
    (section_tag : Nat) : Except PyErr Nat :=
  match dictGet section_tag sections with
  | some s => s.getTransfTag
  | none => .ok 4

/-- `python_exporter.py` lines 233-238: the sections come from the
JSON-loaded document (string keys);
`section_info = sections.get(str(sec_tag));
transf_tag = section_info.get('transf_tag', 1000)`.
A missing `transf_tag` key silently yields the hard-coded default 1000; a
missing section entry makes the `.get` attribute access on `None` raise. -/
def PythonExporter.resolveTransfTag
    (sections : List (String × SMSectionEntry)) (sec_tag : Nat) :
    Except PyErr Nat :=
  match dictGet (strOfTag sec_tag) sections with
  | some si => .ok (si.transf_tag.getD 1000)
  | none => .error .attributeError

theorem strOfTag_one : strOfTag 1 = "1" := by
  unfold strOfTag
  rw [if_neg one_ne_zero,
    @Nat.digits_def' 10 (by norm_num) 1 (by norm_num)]
  norm_num
  decide

/-! ### C5: no CorruptModel on dangling references; hard-coded defaults -/

/-- C5 (evaluating the code at the failing inputs): the claim's required
behavior is absent from the code.  (i) `PythonExporterV2` resolves a frame
element whose `section_tag` has no entry in the sections map to the
hard-coded default transformation tag 4 instead of failing; (ii)
`PythonExporter` resolves a section record that lacks a `transf_tag` key
to the hard-coded default 1000; (iii) `Geometry.from_dict` happily
deserializes a document whose only element carries the dangling
`section_ref` 99 — no code path raises a `CorruptModel`-style error for a
section-reference lookup miss. -/
theorem exporter_transf_tag_default_on_miss :
    PythonExporterV2.resolveTransfTag [] 2 = .ok 4 ∧
    PythonExporter.resolveTransfTag
      [("1", { stype := "ElasticMembranePlateSection", properties := [],
               element_type := some "slab", size := none,
               thickness := some (1/10), transf_tag := none })] 1 =
      .ok 1000 ∧
    GeometryData.fromDict
      { nodes := [("1", { tag := 1, coords := [0, 0, 0], floor := 0,
                          grid_pos := some [0, 0] })]
        elements := [("1", { tag := 1, element_type := "column",
                             nodes := [1, 1], floor := 0,
                             section_tag := 99 })] } =
      .ok { nodes := [(1, { tag := 1, coords := [0, 0, 0], floor := 0,
                            grid_pos := some (0, 0) })]
            elements := [(1, { tag := 1, element_type := "column",
                               nodes := [1, 1], floor := 0,
                               section_tag := 99 })] } := by
  refine ⟨rfl, ?_, rfl⟩
  unfold PythonExporter.resolveTransfTag
  rw [strOfTag_one]
  rfl
